import Mathlib

/-!
Verification of the snow-removal operational-data pipeline
(`tools/data_transformer_tool.py` and `models/data_models.py`).

The Python code is shallowly embedded: JSON values become the inductive
`Json` (numbers as rationals), Python exceptions become `Except String`,
and the ambient interpreter facts that the code consults (`json.loads`
on embedded strings, `datetime.fromisoformat` success, the current
time) are collected in a `PyEnv` parameter.  Every definition follows
the corresponding Python source line by line; deviations that cannot
matter for the claims (e.g. `float()` applied to a numeric string,
which the pipeline never produces) are noted in comments.
-/

set_option maxRecDepth 4000

attribute [local semireducible] Rat.add Rat.mul Rat.inv Rat.sub Rat.ofScientific

/-! ### Character-list string utilities

String operations are implemented over `List Char` by structural
recursion (with an explicit fuel argument where the recursion consumes
a variable-length prefix), so that all concrete runs reduce inside the
kernel.  They model the Python `str` methods used by the pipeline. -/

/-- Lower-case an ASCII letter, like Python `str.lower` on ASCII data. -/
def charLower (c : Char) : Char :=
  if 'A' ≤ c ∧ c ≤ 'Z' then Char.ofNat (c.toNat + 32) else c

/-- Python `str.lower` (ASCII; the pipeline only lowers ASCII keys/levels). -/
def sLower (s : String) : String :=
  String.mk (s.toList.map charLower)

/-- Does `pre` occur at the head of `cs`? -/
def charsHasAtHead : List Char → List Char → Bool
  | [], _ => true
  | _ :: _, [] => false
  | p :: ps, c :: cs => p = c && charsHasAtHead ps cs

/-- Fuel-driven splitter: split `cs` on non-empty separator `sep`. -/
def charsSplit (fuel : Nat) (sep : List Char) (acc : List Char) (cs : List Char) :
    List (List Char) :=
  match fuel with
  | 0 => [acc.reverse]
  | fuel + 1 =>
    match cs with
    | [] => [acc.reverse]
    | c :: rest =>
      if charsHasAtHead sep cs then
        acc.reverse :: charsSplit fuel sep [] (cs.drop sep.length)
      else
        charsSplit fuel sep (c :: acc) rest

/-- Python `str.split(sep)` for a non-empty separator. -/
def sSplitOn (s sep : String) : List String :=
  (charsSplit (s.toList.length + 1) sep.toList [] s.toList).map String.mk

/-- Python `needle in hay` for strings (substring test). -/
def strContains (hay needle : String) : Bool :=
  1 < (sSplitOn hay needle).length

/-- Python `str.endswith` for a non-empty suffix. -/
def sEndsWith (s suffix : String) : Bool :=
  charsHasAtHead suffix.toList.reverse s.toList.reverse

/-- Python `str.startswith`. -/
def sStartsWith (s p : String) : Bool :=
  charsHasAtHead p.toList s.toList

/-- Python `str.replace(a, b)` for a non-empty pattern `a`. -/
def sReplace (s a b : String) : String :=
  String.join ((sSplitOn s a).intersperse b)

/-- Python `str.strip()` (ASCII whitespace, which is all the inputs carry). -/
def sStrip (s : String) : String :=
  String.mk (((s.toList.dropWhile (fun c => c = ' ')).reverse.dropWhile
    (fun c => c = ' ')).reverse)

/-- Parse a run of decimal digits. -/
def digitsToNat? (s : List Char) : Option Nat :=
  if s ≠ [] ∧ s.all Char.isDigit then
    some (s.foldl (fun n c => n * 10 + (c.toNat - 48)) 0)
  else none

/-- Python `float(str)` on plain decimal literals (optional sign, optional
fractional part).  Exponent and `inf`/`nan` forms are not modelled: the
pipeline only ever parses coordinate literals such as `"46.8"`. -/
def parseFloat? (s : String) : Option ℚ :=
  let t := s.toList
  let (neg, t) :=
    match t with
    | '-' :: rest => (true, rest)
    | '+' :: rest => (false, rest)
    | _ => (false, t)
  let signed (q : ℚ) : ℚ := if neg then -q else q
  match (charsSplit (t.length + 1) ['.'] [] t) with
  | [ip] => (digitsToNat? ip).map (fun n => signed n)
  | [ip, fp] =>
    if ip = [] then
      (digitsToNat? fp).map (fun f => signed (f / 10 ^ fp.length))
    else if fp = [] then
      (digitsToNat? ip).map (fun n => signed n)
    else
      match digitsToNat? ip, digitsToNat? fp with
      | some n, some f => some (signed (n + f / 10 ^ fp.length))
      | _, _ => none
  | _ => none

/-- Rounding to the nearest integer (halves up), computably. -/
def qRound (x : ℚ) : ℤ := Rat.floor (x + 1 / 2)

/-- `qRound` agrees with Mathlib's `round` on `ℚ`. -/
theorem qRound_eq_round (x : ℚ) : qRound x = round x := by
  rw [qRound, round_eq, Rat.floor_def', Rat.floor_def]

/-- Round to one decimal place, as `round(x, 1)` in the pipeline.  Python
rounds ties to even; ties never arise on pipeline values (they are all
multiples of `1/10` already), so ordinary rounding is faithful here. -/
def round1 (q : ℚ) : ℚ := ((qRound (q * 10) : ℤ) : ℚ) / 10

/-- Format a rational with one decimal digit, as the `"%.1f"` f-strings in
the alert messages (the formatted values are always multiples of `1/10`). -/
def fmt1 (q : ℚ) : String :=
  let n : ℤ := qRound (q * 10)
  let sign := if n < 0 then "-" else ""
  sign ++ Nat.repr (n.natAbs / 10) ++ "." ++ Nat.repr (n.natAbs % 10)

/-! ### The JSON data model -/

/-- A parsed JSON value, as produced by `json.loads`.  Objects are
association lists in insertion order; JSON numbers are rationals. -/
inductive Json where
  | null
  | bool (b : Bool)
  | num (q : ℚ)
  | str (s : String)
  | arr (elems : List Json)
  | obj (fields : List (String × Json))

/-- Key lookup in an association list (JSON objects have unique keys). -/
def jLookup : List (String × Json) → String → Option Json
  | [], _ => none
  | kv :: rest, k => if kv.1 = k then some kv.2 else jLookup rest k

/-- Lookup on a `Json` value; `none` when the value is not an object. -/
def Json.lookup : Json → String → Option Json
  | .obj fs, k => jLookup fs k
  | _, _ => none

/-- `d.get(k, dflt)` on a value known to be a dict. -/
def Json.getD (j : Json) (k : String) (d : Json) : Json :=
  (j.lookup k).getD d

/-- Python truthiness of a JSON value. -/
def Json.truthy : Json → Bool
  | .null => false
  | .bool b => b
  | .num q => decide (q ≠ 0)
  | .str s => s ≠ ""
  | .arr xs => !xs.isEmpty
  | .obj fs => !fs.isEmpty

/-- Python `x == "lit"` where `x` is an arbitrary JSON value: only a string
with the same content compares equal; other types compare unequal without
raising. -/
def isStrEq (j : Json) (s : String) : Bool :=
  match j with
  | .str t => t = s
  | _ => false

/-- `d.get(k, dflt)`: raises `AttributeError` on non-dicts. -/
def pyGetD (j : Json) (k : String) (d : Json) : Except String Json :=
  match j with
  | .obj _ => .ok (j.getD k d)
  | _ => .error "AttributeError: get"

/-- `d[k]`: `KeyError` when missing, `TypeError`-ish on non-dicts (the
pipeline only ever subscripts after an `in` check, so the key is present). -/
def pyGetItem (j : Json) (k : String) : Except String Json :=
  match j with
  | .obj _ =>
    match j.lookup k with
    | some v => .ok v
    | none => .error "KeyError"
  | _ => .error "TypeError: subscript"

/-- Python `for x in v`: lists yield elements, strings yield one-character
strings, dicts yield their keys; other values raise `TypeError`. -/
def pyIter : Json → Except String (List Json)
  | .arr xs => .ok xs
  | .str s => .ok (s.toList.map (fun c => .str (String.mk [c])))
  | .obj fs => .ok (fs.map (fun kv => .str kv.1))
  | _ => .error "TypeError: not iterable"

/-- Python `len(v)`. -/
def pyLen : Json → Except String Nat
  | .arr xs => .ok xs.length
  | .str s => .ok s.toList.length
  | .obj fs => .ok fs.length
  | _ => .error "TypeError: len"

/-- Python `"k" in v`: key test on dicts, membership on lists, substring on
strings; raises `TypeError` on other values. -/
def pyIn (needle : String) (j : Json) : Except String Bool :=
  match j with
  | .obj fs => .ok (jLookup fs needle).isSome
  | .arr xs => .ok (xs.any (fun x => isStrEq x needle))
  | .str s => .ok (strContains s needle)
  | _ => .error "TypeError: in"

/-- Python `float(v)` on JSON values: numbers and booleans convert, other
values raise.  (`float` on a numeric string would succeed in Python; the
pipeline's numeric fields are never strings in any modelled scenario, and
a string here still lands on the same `except`-default path.) -/
def pyFloat : Json → Except String ℚ
  | .num q => .ok q
  | .bool b => .ok (if b then 1 else 0)
  | _ => .error "TypeError: float"

/-- Python `str(v)`.  Container reprs are abbreviated (no claim inspects
them); the pipeline only applies `str` to strings in practice. -/
def pyStr : Json → String
  | .str s => s
  | .num q => toString q
  | .bool b => if b then "True" else "False"
  | .null => "None"
  | .arr _ => "[...]"
  | .obj _ => "dict"

/-- pydantic v1 coercion to a `str` field: strings pass, numbers and bools
are stringified, `None`/containers are rejected. -/
def pyStrCoerce : Json → Except String String
  | .str s => .ok s
  | .num q => .ok (toString q)
  | .bool b => .ok (if b then "True" else "False")
  | _ => .error "ValidationError: str"

/-- pydantic v1 coercion to an `int` field: integral numbers, bools and
digit strings pass; everything else is rejected. -/
def pyIntCoerce : Json → Except String ℤ
  | .num q => if q.den = 1 then .ok q.num else .error "ValidationError: int"
  | .bool b => .ok (if b then 1 else 0)
  | .str s =>
    match digitsToNat? s.toList with
    | some n => .ok n
    | none => .error "ValidationError: int"
  | _ => .error "ValidationError: int"

/-! ### Interpreter environment and raw inputs -/

/-- Ambient interpreter facts the pipeline consults: `reparse` is
`json.loads` applied to an embedded string (`none` = parse failure),
`isIso` is whether `datetime.fromisoformat` accepts a string, and the
`now*` fields are the formatted current time. -/
structure PyEnv where
  reparse : String → Option Json
  isIso : String → Bool
  nowDate : String
  nowIso : String
  nowPlus3hIso : String

/-- One raw tool input: an optional JSON-encoded string, abstracted to its
top-level parse outcome. -/
inductive RawInput where
  | absent
  | blank
  | malformed
  | parsed (j : Json)

/-- `safe_parse_json` (data_transformer_tool.py lines 13-38).  Empty and
malformed inputs yield `{}`; in nested mode each string-valued entry of a
parsed dict is re-parsed (kept verbatim on failure).  A parsed non-dict in
nested mode hits `data.items()` and raises `AttributeError`; in plain mode
it is returned as is. -/
def safe_parse_json (reparse : String → Option Json) (input : RawInput)
    (nested : Bool) : Except String Json :=
  match input with
  | .absent => .ok (.obj [])
  | .blank => .ok (.obj [])
  | .malformed => .ok (.obj [])
  | .parsed j =>
    if nested then
      match j with
      | .obj fs =>
        .ok (.obj (fs.map (fun kv =>
          match kv.2 with
          | .str s => (kv.1, (reparse s).getD (.str s))
          | v => (kv.1, v))))
      | _ => .error "AttributeError: items"
    else .ok j

/-! ### Typed data models (`models/data_models.py`)

Each pydantic model becomes a structure plus an `Except`-valued smart
constructor that performs exactly the model's field constraints and
`@validator` logic (pydantic v1 runs field constraints before custom
validators). -/

/-- `WeatherAlert` fields. -/
structure WeatherAlert where
  level : String
  message : String
deriving DecidableEq, Repr

/-- `WeatherAlert` construction: `validate_level` lower-cases the level and
rejects anything outside `{info, warning, danger}`; the message is coerced
to `str`. -/
def mkWeatherAlert (level : Json) (message : Json) : Except String WeatherAlert := do
  let lv ← pyStrCoerce level
  if (sLower lv = "info" ∨ sLower lv = "warning" ∨ sLower lv = "danger") then
    let msg ← pyStrCoerce message
    .ok ⟨sLower lv, msg⟩
  else .error "ValidationError: level"

/-- `WeatherForecastEntry` fields. -/
structure WeatherForecastEntry where
  time : String
  snowfall : ℚ
  temp : ℚ
deriving DecidableEq, Repr

/-- `validate_time_format` (data_models.py lines 11-36): keep ISO-parseable
times, map `"later"` to now+3h, otherwise prepend the current date. -/
def validate_time_format (env : PyEnv) (v : String) : String :=
  if env.isIso (sReplace v "Z" "+00:00") then v
  else if sLower v = "later" then env.nowPlus3hIso
  else env.nowDate ++ "T" ++ v ++ "Z"

/-- `WeatherForecastEntry` construction: normalizes the time and rejects
negative snowfall (`snowfall: float = Field(..., ge=0)`). -/
def mkForecastEntry (env : PyEnv) (time : String) (snowfall temp : ℚ) :
    Except String WeatherForecastEntry :=
  if snowfall < 0 then .error "ValidationError: snowfall"
  else .ok ⟨validate_time_format env time, snowfall, temp⟩

/-- `WeatherData` fields. -/
structure WeatherData where
  current_temp : ℚ
  current_conditions : String
  accumulation : ℚ
  forecast : List WeatherForecastEntry
  alerts : List WeatherAlert
deriving DecidableEq, Repr

/-- `WeatherData` construction: non-empty conditions, non-negative
accumulation (sub-model instances are not re-validated by pydantic v1). -/
def mkWeatherData (current_temp : ℚ) (current_conditions : String)
    (accumulation : ℚ) (forecast : List WeatherForecastEntry)
    (alerts : List WeatherAlert) : Except String WeatherData :=
  if current_conditions = "" then .error "ValidationError: current_conditions"
  else if accumulation < 0 then .error "ValidationError: accumulation"
  else .ok ⟨current_temp, current_conditions, accumulation, forecast, alerts⟩

/-- `DepotStatus` fields (the pipeline only builds literal depots whose
constraints hold, so no fallible constructor is needed). -/
structure DepotStatus where
  name : String
  status : String
  status_color : String
deriving DecidableEq, Repr

/-- `ResourceData` fields. -/
structure ResourceData where
  salt_level : ℚ
  fuel_level : ℚ
  depots : List DepotStatus
deriving DecidableEq, Repr

/-- `validate_percentage` (data_models.py lines 70-72). -/
def validate_percentage (v : ℚ) : ℚ := round1 (min (max v 0) 100)

/-- `ResourceData` construction: `Field(ge=0, le=100)` runs first and
rejects out-of-range levels, then `validate_percentage` clamps/rounds. -/
def mkResourceData (salt_level fuel_level : ℚ) (depots : List DepotStatus) :
    Except String ResourceData :=
  if ¬ (0 ≤ salt_level ∧ salt_level ≤ 100) then .error "ValidationError: salt_level"
  else if ¬ (0 ≤ fuel_level ∧ fuel_level ≤ 100) then .error "ValidationError: fuel_level"
  else .ok ⟨validate_percentage salt_level, validate_percentage fuel_level, depots⟩

/-- `RouteData` fields; `efficiency_scores` and `priority_zones` keep the
source's dict insertion order as association lists. -/
structure RouteData where
  active_routes : Nat
  coverage : ℚ
  efficiency_scores : List (String × ℚ)
  priority_zones : List (String × ℚ × String)
deriving DecidableEq, Repr

/-- `validate_efficiency_scores` (data_models.py lines 87-89). -/
def validate_efficiency_scores (v : List (String × ℚ)) : List (String × ℚ) :=
  v.map (fun kv => (kv.1, round1 (min (max kv.2 0) 100)))

/-- One zone check of `validate_priority_zones`. -/
def zoneOk (z : String × ℚ × String) : Bool :=
  decide (0 ≤ z.2.1 ∧ z.2.1 ≤ 100) &&
    (sLower z.2.2 = "success" ∨ sLower z.2.2 = "warning" ∨
      sLower z.2.2 = "danger" ∨ sLower z.2.2 = "info")

/-- `RouteData` construction: `coverage` has `ge=0, le=100`; the two
dict validators run as in the source (`validate_priority_zones` checks but
does not rewrite). -/
def mkRouteData (active_routes : Nat) (coverage : ℚ)
    (efficiency_scores : List (String × ℚ))
    (priority_zones : List (String × ℚ × String)) : Except String RouteData :=
  if ¬ (0 ≤ coverage ∧ coverage ≤ 100) then .error "ValidationError: coverage"
  else if ¬ priority_zones.all zoneOk then .error "ValidationError: priority_zones"
  else .ok ⟨active_routes, coverage, validate_efficiency_scores efficiency_scores,
    priority_zones⟩

/-- `VehicleStatus` fields (built only from valid literals). -/
structure VehicleStatus where
  id : String
  status : String
  status_color : String
  region : String
  priority : String
deriving DecidableEq, Repr

/-- `FleetData` fields. -/
structure FleetData where
  vehicles : List VehicleStatus
deriving DecidableEq, Repr

/-- `MapIncident` fields. -/
structure MapIncident where
  type : ℤ
  description : String
  longitude : ℚ
  latitude : ℚ
deriving DecidableEq, Repr

/-- `MapIncident` construction: type code in `[0, 9]`, non-empty
description, coordinates in range. -/
def mkMapIncident (type : ℤ) (description : String) (longitude latitude : ℚ) :
    Except String MapIncident :=
  if ¬ (0 ≤ type ∧ type ≤ 9) then .error "ValidationError: type"
  else if description = "" then .error "ValidationError: description"
  else if ¬ (-180 ≤ longitude ∧ longitude ≤ 180) then .error "ValidationError: longitude"
  else if ¬ (-90 ≤ latitude ∧ latitude ≤ 90) then .error "ValidationError: latitude"
  else .ok ⟨type, description, longitude, latitude⟩

/-- One `[lon, lat]` pair check of `MapRoute.validate_geometry`
(`isinstance` number checks guard the comparisons, so this is total;
Python treats booleans as numbers). -/
def validCoordPair (c : Json) : Bool :=
  match c with
  | .arr [a, b] =>
    match a, b with
    | .num x, .num y => decide (-180 ≤ x ∧ x ≤ 180) && decide (-90 ≤ y ∧ y ≤ 90)
    | .num x, .bool _ => decide (-180 ≤ x ∧ x ≤ 180)
    | .bool _, .num y => decide (-90 ≤ y ∧ y ≤ 90)
    | .bool _, .bool _ => true
    | _, _ => false
  | _ => false

/-- `MapRoute.validate_geometry` (data_models.py lines 126-163) as a
decidable predicate: a `Feature` dict wrapping a `LineString` with a
non-empty list of in-range coordinate pairs. -/
def validate_geometry (v : Json) : Bool :=
  match v with
  | .obj _ =>
    isStrEq (v.getD "type" .null) "Feature" &&
    (match v.lookup "geometry" with
     | some geom =>
       (match geom with
        | .obj _ =>
          isStrEq (geom.getD "type" .null) "LineString" &&
          (match geom.lookup "coordinates" with
           | some (.arr cs) => !cs.isEmpty && cs.all validCoordPair
           | _ => false)
        | _ => false)
     | none => false)
  | _ => false

/-- `MapRoute` fields; the geometry is kept as raw JSON as in the source. -/
structure MapRoute where
  id : String
  priority : ℤ
  geometry : Json

/-- `MapRoute` construction: non-empty id, priority in `{1, 2, 3}`, and the
full geometry validator. -/
def mkMapRoute (id : String) (priority : ℤ) (geometry : Json) :
    Except String MapRoute :=
  if id = "" then .error "ValidationError: id"
  else if ¬ (1 ≤ priority ∧ priority ≤ 3) then .error "ValidationError: priority"
  else if ¬ validate_geometry geometry then .error "ValidationError: geometry"
  else .ok ⟨id, priority, geometry⟩

/-- `MapData` fields. -/
structure MapData where
  routes : List MapRoute
  incidents : List MapIncident

/-- `OperationalData` fields. -/
structure OperationalData where
  weather_data : WeatherData
  resource_data : ResourceData
  route_data : RouteData
  fleet_data : FleetData
  alerts_data : List WeatherAlert
  map_data : Option MapData

/-- `validate_and_enhance_alerts` (data_models.py lines 179-211): starting
from the explicitly passed alerts (the pipeline always passes none, so the
default `[]`), append a salt warning when `salt_level < 30`, a fuel warning
when `fuel_level < 30`, a danger alert when `accumulation > 20`, and a cold
warning when `current_temp < -20`. -/
def validate_and_enhance_alerts (v : List WeatherAlert)
    (resource : ResourceData) (weather : WeatherData) : List WeatherAlert :=
  v ++
  (if resource.salt_level < 30 then
    [⟨"warning", "Salt inventory critical at " ++ fmt1 resource.salt_level ++ "%"⟩]
   else []) ++
  (if resource.fuel_level < 30 then
    [⟨"warning", "Fuel inventory critical at " ++ fmt1 resource.fuel_level ++ "%"⟩]
   else []) ++
  (if weather.accumulation > 20 then
    [⟨"danger", "Heavy snow accumulation: " ++ fmt1 weather.accumulation ++ "cm"⟩]
   else []) ++
  (if weather.current_temp < -20 then
    [⟨"warning", "Extreme cold temperature: " ++ fmt1 weather.current_temp ++ "°C"⟩]
   else [])

/-- `OperationalData` assembly as performed by `_run`: `alerts_data` is not
passed, so the validator starts from the empty list.  Construction is
total: all derived alerts have valid levels and sub-models are instances
already. -/
def mkOperationalData (w : WeatherData) (res : ResourceData) (rd : RouteData)
    (fd : FleetData) (md : MapData) : OperationalData :=
  ⟨w, res, rd, fd, validate_and_enhance_alerts [] res w, some md⟩

/-! ### Weather Transformer (`_transform_weather_data`, lines 50-204) -/

/-- A standardized forecast entry as built by `standardize_weather_data`
(time already normalized, numeric fields already converted). -/
structure StdForecastEntry where
  time : String
  temp : ℚ
  snowfall : ℚ
deriving DecidableEq, Repr

/-- The `currentConditions` extraction of `standardize_weather_data`
(lines 72-80): a `currentConditions` value is taken verbatim; a flat
`current_conditions` shape is repacked; otherwise the empty dict. -/
def weatherCC (data : Json) : Except String Json := do
  let b1 ← pyIn "currentConditions" data
  if b1 then pyGetItem data "currentConditions"
  else do
    let b2 ← pyIn "current_conditions" data
    if b2 then do
      let t ← pyGetD data "current_temp" (.num 0)
      let d ← pyGetItem data "current_conditions"
      let a ← pyGetD data "accumulation" (.num 0)
      .ok (Json.obj [("temperature", t), ("description", d), ("accumulation", a)])
    else .ok (Json.obj [])

/-- Forecast standardization (lines 83-105): per entry, keep an
ISO-looking time (contains `T`, ends in `Z`), map `"later"` to now+3h,
otherwise prepend the current date; convert `temp` and `snowfall` with
`float`.  A non-string time raises (`in`/`endswith`/`lower` on the
non-string), landing on the error path exactly as in Python. -/
def stdForecastList (env : PyEnv) : List Json → Except String (List StdForecastEntry)
  | [] => .ok []
  | entry :: rest => do
    let timeJ ← pyGetD entry "time" (.str "")
    let timeS ← (match timeJ with
      | .str s => .ok s
      | _ => Except.error "TypeError: time")
    let time :=
      if strContains timeS "T" && sEndsWith timeS "Z" then timeS
      else if sLower timeS = "later" then env.nowPlus3hIso
      else env.nowDate ++ "T" ++ timeS ++ "Z"
    let tempJ ← pyGetD entry "temp" (.num 0)
    let temp ← pyFloat tempJ
    let snowJ ← pyGetD entry "snowfall" (.num 0)
    let snow ← pyFloat snowJ
    let rest' ← stdForecastList env rest
    .ok (⟨time, temp, snow⟩ :: rest')

/-- Alert standardization (lines 107-117).  Its result is discarded by the
final construction (which re-reads the raw alerts), but it can raise — a
non-string `level` hits `.lower()` — so the raising structure is kept. -/
def stdAlertsCheck : List Json → Except String Unit
  | [] => .ok ()
  | a :: rest =>
    match a with
    | .obj _ => do
      let lv ← pyGetD a "level" (.str "")
      match lv with
      | .str _ => stdAlertsCheck rest
      | _ => Except.error "AttributeError: lower"
    | _ => stdAlertsCheck rest

/-- The forecast part of `standardize_weather_data` applied to the data
dict: `data.get('forecast', [])`, iterate, standardize. -/
def weatherForecastPart (env : PyEnv) (data : Json) :
    Except String (List StdForecastEntry) := do
  let rawForecast ← pyGetD data "forecast" (.arr [])
  let entries ← pyIter rawForecast
  stdForecastList env entries

/-- The alert part of `standardize_weather_data` applied to the data dict. -/
def weatherAlertsCheck (data : Json) : Except String Unit := do
  let rawAlerts ← pyGetD data "alerts" (.arr [])
  let items ← pyIter rawAlerts
  stdAlertsCheck items

/-- Validated forecast construction (lines 175-181): each standardized
entry goes through `WeatherForecastEntry` validation. -/
def mkForecastEntries (env : PyEnv) :
    List StdForecastEntry → Except String (List WeatherForecastEntry)
  | [] => .ok []
  | e :: rest => do
    let fe ← mkForecastEntry env e.time e.snowfall e.temp
    let rest' ← mkForecastEntries env rest
    .ok (fe :: rest')

/-- Validated alert construction (lines 182-187): built from the RAW
input's alerts (`weather_data.get('alerts', [])`), with
`alert.get('level', 'info').lower()` — so a non-dict entry or non-string
level raises, and a level outside `{info, warning, danger}` fails
`WeatherAlert` validation (unlike the discarded standardized alerts,
which defaulted such levels to `"warning"`). -/
def mkAlertList : List Json → Except String (List WeatherAlert)
  | [] => .ok []
  | a :: rest => do
    let lvJ ← pyGetD a "level" (.str "info")
    let lvS ← (match lvJ with
      | .str s => .ok s
      | _ => Except.error "AttributeError: lower")
    let al ← mkWeatherAlert (.str (sLower lvS)) (a.getD "message" (.str "No message"))
    let rest' ← mkAlertList rest
    .ok (al :: rest')

/-- The fallible body of `_transform_weather_data` for truthy input.
The chart series built locally at lines 131-168 (including the
zero-filled precipitation array) is discarded by the source and total, so
it is omitted here. -/
def weatherBody (env : PyEnv) (wd : Json) : Except String WeatherData := do
  let data := (match wd with
    | .str s => (env.reparse s).getD (.obj [])
    | j => j)
  let cc ← weatherCC data
  let fc ← weatherForecastPart env data
  let _ ← weatherAlertsCheck data
  let tJ ← pyGetD cc "temperature" (.num 0)
  let current_temp ← pyFloat tJ
  let dJ ← pyGetD cc "description" (.str "No data")
  let aJ ← pyGetD cc "accumulation" (.num 0)
  let accumulation ← pyFloat aJ
  let fes ← mkForecastEntries env fc
  let rawAl ← pyGetD wd "alerts" (.arr [])
  let alItems ← pyIter rawAl
  let alerts ← mkAlertList alItems
  mkWeatherData current_temp (pyStr dJ) accumulation fes alerts

/-- The untruthy-input default `WeatherData` (lines 53-60). -/
def noDataWeather : WeatherData := ⟨0, "No data", 0, [], []⟩

/-- The exception-path `WeatherData` (lines 190-204). -/
def errorWeather (e : String) : WeatherData :=
  ⟨0, "Error", 0, [],
    [⟨"warning", "Failed to transform weather data: " ++ e⟩]⟩

/-- `_transform_weather_data` (lines 50-204). -/
def transform_weather_data (env : PyEnv) (wd : Json) : WeatherData :=
  if ¬ wd.truthy then noDataWeather
  else
    match weatherBody env wd with
    | .ok w => w
    | .error e => errorWeather e

/-! ### Inventory Transformer (`_transform_inventory_data`, lines 206-266) -/

/-- The `isinstance(str)` re-parse step (lines 223-234): a string input is
re-parsed, with a fixed fallback dict on parse failure; other inputs pass
through. -/
def resolveInvInput (env : PyEnv) (j : Json) (dflt : Json) : Json :=
  match j with
  | .str s => (env.reparse s).getD dflt
  | _ => j

/-- `total_fuel` (line 236): `float(get('diesel', 0)) + float(get('gasoline', 0))`. -/
def totalFuel (fuel : Json) : Except String ℚ := do
  let d ← pyGetD fuel "diesel" (.num 0)
  let dq ← pyFloat d
  let g ← pyGetD fuel "gasoline" (.num 0)
  let gq ← pyFloat g
  .ok (dq + gq)

/-- `total_salt` (line 237): `float(get('rockSalt', 0)) + float(get('treatedSalt', 0))`. -/
def totalSalt (salt : Json) : Except String ℚ := do
  let r ← pyGetD salt "rockSalt" (.num 0)
  let rq ← pyFloat r
  let t ← pyGetD salt "treatedSalt" (.num 0)
  let tq ← pyFloat t
  .ok (rq + tq)

/-- The default/error-path `ResourceData` (lines 210-220 and 256-266). -/
def defaultResourceData : ResourceData :=
  ⟨50, 50, [⟨"Main Depot", "Unknown", "warning"⟩]⟩

/-- The percentage formula of lines 240-241:
`min((total / (total * 2)) * 100, 100) if total > 0 else 0`. -/
def levelOf (total : ℚ) : ℚ :=
  if 0 < total then min ((total / (total * 2)) * 100) 100 else 0

/-- The fallible body of `_transform_inventory_data` for truthy inputs:
note the levels are computed only from the raw-quantity keys, via the
`sum / (sum * 2) * 100` formula (lines 236-253). -/
def invBody (env : PyEnv) (fuel_data salt_data : Json) : Except String ResourceData := do
  let fuel := resolveInvInput env fuel_data (.obj [("fuel_level", .num 50)])
  let salt := resolveInvInput env salt_data (.obj [("salt_level", .num 50)])
  let total_fuel ← totalFuel fuel
  let total_salt ← totalSalt salt
  let fuel_level : ℚ := levelOf total_fuel
  let salt_level : ℚ := levelOf total_salt
  mkResourceData salt_level fuel_level
    [⟨"Main Depot",
      if 30 < salt_level ∧ 30 < fuel_level then "Operational" else "Low Stock",
      if 30 < salt_level ∧ 30 < fuel_level then "success" else "warning"⟩]

/-- `_transform_inventory_data` (lines 206-266); `not fuel_data or not
salt_data` is written contrapositively as one conjunction. -/
def transform_inventory_data (env : PyEnv) (fuel_data salt_data : Json) : ResourceData :=
  if ¬ (fuel_data.truthy = true ∧ salt_data.truthy = true) then defaultResourceData
  else
    match invBody env fuel_data salt_data with
    | .ok r => r
    | .error _ => defaultResourceData

/-! ### Traffic/Map Transformer (`_transform_traffic_data`, lines 268-685) -/

/-- `standardize_traffic_data` (lines 335-360): selects the traffic-flow
object and optimized-route list from either the `routeOptimizationPlan`
shape or the direct `currentTrafficFlow` shape. -/
def standardize_traffic_data (env : PyEnv) (data0 : Json) :
    Except String (Json × Json) := do
  let data := (match data0 with
    | .str s => (env.reparse s).getD (.obj [])
    | j => j)
  let hasROP ← pyIn "routeOptimizationPlan" data
  if hasROP then do
    let rop ← pyGetD data "routeOptimizationPlan" (.obj [])
    let tia ← pyGetD rop "trafficImpactAnalysis" (.obj [])
    let ct ← pyGetD tia "currentTrafficFlow" (.obj [])
    let rop2 ← pyGetD data "routeOptimizationPlan" (.obj [])
    let orts ← pyGetD rop2 "optimizedRoutes" (.arr [])
    .ok (ct, orts)
  else do
    let hasCTF ← pyIn "currentTrafficFlow" data
    if hasCTF then do
      let ct ← pyGetD data "currentTrafficFlow" (.obj [])
      let oro ← pyGetD data "optimized_route" (.obj [])
      let orts ← pyGetD oro "routes" (.arr [])
      .ok (ct, orts)
    else .ok (Json.obj [], Json.arr [])

/-- `legs[0]`-style indexing: list head, `IndexError` when empty. -/
def pyIndex0 : Json → Except String Json
  | .arr (x :: _) => .ok x
  | .arr [] => .error "IndexError"
  | .str s =>
    match s.toList with
    | c :: _ => .ok (.str (String.mk [c]))
    | [] => .error "IndexError"
  | _ => .error "TypeError: index"

/-- The new-format point filter of the dead `route_points` extraction:
`'longitude' in point and 'latitude' in point`, then subscripting. -/
def checkPointsNew : List Json → Except String Unit
  | [] => .ok ()
  | p :: rest => do
    let b1 ← pyIn "longitude" p
    if b1 then do
      let b2 ← pyIn "latitude" p
      if b2 then do
        let _ ← pyGetItem p "longitude"
        let _ ← pyGetItem p "latitude"
        checkPointsNew rest
      else checkPointsNew rest
    else checkPointsNew rest

/-- The old-format point filter: `point.get('longitude') and point.get('latitude')`. -/
def checkPointsOld : List Json → Except String Unit
  | [] => .ok ()
  | p :: rest => do
    let _ ← pyGetD p "longitude" .null
    let _ ← pyGetD p "latitude" .null
    checkPointsOld rest

/-- One route of the `route_points` extraction (lines 370-388). -/
def checkRoutePointsList : List Json → Except String Unit
  | [] => .ok ()
  | r :: rest => do
    (match r with
     | .obj _ => do
       let hasRoute ← pyIn "route" r
       if hasRoute then do
         let points ← pyGetItem r "route"
         let pts ← pyIter points
         checkPointsNew pts
       else do
         let hasLegs ← pyIn "legs" r
         if hasLegs then do
           let legs ← pyGetD r "legs" (.arr [Json.obj []])
           let leg0 ← pyIndex0 legs
           let points ← pyGetD leg0 "points" (.arr [])
           let pts ← pyIter points
           checkPointsOld pts
         else .ok ()
     | _ => .ok ())
    checkRoutePointsList rest

/-- The `route_points` extraction (lines 369-392).  Its value is dead in
the source (only re-assigned, never read), but the traversal can raise,
so only its raising structure is modelled. -/
def checkRoutePoints (optRoutes : Json) : Except String Unit := do
  let routes ← pyIter optRoutes
  checkRoutePointsList routes

/-- `parse_coordinates` (lines 434-461): split on `", "` (or `","`), parse
both parts as floats, and range-check; every failure returns `none`. -/
def parse_coordinates (coord_str : String) : Option (ℚ × ℚ) :=
  let parts? :=
    if strContains coord_str ", " then some (sSplitOn coord_str ", ")
    else if strContains coord_str "," then some (sSplitOn coord_str ",")
    else none
  match parts? with
  | none => none
  | some parts =>
    if parts.length = 2 then
      match parseFloat? (sStrip (parts.headD "")),
            parseFloat? (sStrip (parts.getD 1 "")) with
      | some lat, some lon =>
        if (-90 ≤ lat ∧ lat ≤ 90) ∧ (-180 ≤ lon ∧ lon ≤ 180) then some (lat, lon)
        else none
      | _, _ => none
    else none

/-- One incident entry (lines 502-525): split on `" at "`, classify the
type keyword, parse the coordinates; any failure skips the entry (the
per-entry `try`/`continue`). -/
def incidentSpec? (inc : Json) : Option (ℤ × String × ℚ × ℚ) :=
  match inc with
  | .str s =>
    let parts := sSplitOn s " at "
    if parts.length = 2 then
      let p0 := parts.headD ""
      match parse_coordinates (parts.getD 1 "") with
      | some (lat, lon) =>
        let itype := sLower p0
        let code : ℤ :=
          if strContains itype "road works" then 8
          else if strContains itype "road closed" then 6
          else if strContains itype "traffic jam" then 9
          else 1
        some (code, p0, lat, lon)
      | none => none
    else none
  | _ => none

/-- One road-closure entry (lines 532-546). -/
def closureSpec? (closure : Json) : Option (ℤ × String × ℚ × ℚ) :=
  match closure with
  | .str s =>
    let parts := sSplitOn s " at "
    if parts.length = 2 then
      match parse_coordinates (parts.getD 1 "") with
      | some (lat, lon) => some (6, "Road Closed", lat, lon)
      | none => none
    else none
  | _ => none

/-- The `for key, value in traffic_data.items()` scan for a nested flow
object (lines 477-484). -/
def scanForFlow : List (String × Json) → Json
  | [] => .obj []
  | (_, v) :: rest =>
    match v with
    | .obj _ =>
      if (v.lookup "Current Traffic Flow").isSome ∨ (v.lookup "currentTrafficFlow").isSome
      then v.getD "Current Traffic Flow" (v.getD "currentTrafficFlow" (.obj []))
      else scanForFlow rest
    | _ => scanForFlow rest

/-- Incident/closure collection for the map overlay (lines 464-546),
applied to the (post-string-resolution) traffic value. -/
def mapIncidentsPart (data : Json) : Except String (List (ℤ × String × ℚ × ℚ)) :=
  match data with
  | .obj fs => do
    let hasROP2 ← pyIn "Route Optimization Plan" data
    let flow0 ←
      if hasROP2 then do
        let rp ← pyGetItem data "Route Optimization Plan"
        let ti ← pyGetD rp "Traffic Integration" (.obj [])
        pyGetD ti "Current Traffic Flow" (.obj [])
      else
        if (Json.lookup data "currentTrafficFlow").isSome then
          pyGetItem data "currentTrafficFlow"
        else .ok (scanForFlow fs)
    let flow ← if flow0.truthy then .ok flow0 else pyGetD data "currentTrafficFlow" (.obj [])
    let incs0 ← pyGetD flow "incidents" (.arr [])
    let incs ← if incs0.truthy then .ok incs0 else pyGetD flow "Incidents" (.arr [])
    let incItems ← pyIter incs
    let cls0 ← pyGetD flow "roadClosures" (.arr [])
    let cls ← if cls0.truthy then .ok cls0 else pyGetD flow "Road Closures" (.arr [])
    let clsItems ← pyIter cls
    .ok (incItems.filterMap incidentSpec? ++ clsItems.filterMap closureSpec?)
  | _ => .ok []

/-- The `for key, value in traffic_data.items()` scan for nested routes
(lines 558-562). -/
def scanForRoutes : List (String × Json) → Json
  | [] => .arr []
  | (_, v) :: rest =>
    match v with
    | .obj _ =>
      match v.lookup "routes" with
      | some r => r
      | none => scanForRoutes rest
    | _ => scanForRoutes rest

/-- Route-list selection (lines 549-562). -/
def routesPart (data : Json) : Except String Json :=
  match data with
  | .obj fs => do
    let r0 ←
      if (Json.lookup data "routes").isSome then pyGetItem data "routes"
      else if (Json.lookup data "currentTrafficFlow").isSome then
        pyGetD data "routes" (.arr [])
      else .ok (Json.arr [])
    .ok (if r0.truthy then r0 else scanForRoutes fs)
  | _ => .ok (Json.arr [])

/-- One coordinate check of the transformer's pre-filter (lines 582-587):
`isinstance(coord, list) and len(coord) == 2 and -180 <= coord[0] <= 180
and -90 <= coord[1] <= 90` — a non-numeric element reached by the
short-circuiting comparison raises. -/
def checkCoord (c : Json) : Except String Bool :=
  match c with
  | .arr [a, b] => do
    let x ← pyFloat a
    if ¬ (-180 ≤ x ∧ x ≤ 180) then .ok false
    else do
      let y ← pyFloat b
      .ok (decide (-90 ≤ y ∧ y ≤ 90))
  | _ => .ok false

/-- `all(...)` over the coordinates, short-circuiting at the first
failing pair as the Python generator does. -/
def checkCoords : List Json → Except String Bool
  | [] => .ok true
  | c :: rest => do
    let b ← checkCoord c
    if b then checkCoords rest else .ok false

/-- GeoJSON route pre-filtering (lines 565-601): keep `Feature`-wrapped
`LineString`s with more than one in-range coordinate pair, wrapping bare
geometries into Features; every other route is skipped without error. -/
def validateRoutesList : List Json → Except String (List Json)
  | [] => .ok []
  | r :: rest => do
    let keep? ← (match r with
      | .obj _ => do
        let geometry ← pyGetD r "geometry" (.obj [])
        (match geometry with
         | .obj _ => do
           let isFeat := isStrEq (geometry.getD "type" .null) "Feature"
           let geom ← if isFeat then pyGetD geometry "geometry" (.obj [])
             else .ok geometry
           let t ← pyGetD geom "type" .null
           if isStrEq t "LineString" then do
             (match geom.lookup "coordinates" with
              | some (.arr cs) =>
                if 1 < cs.length then do
                  let ok ← checkCoords cs
                  if ok then
                    if isFeat then .ok (some r)
                    else do
                      let idJ ← pyGetD r "id" (.str "route1")
                      let pJ ← pyGetD r "priority" (.num 1)
                      .ok (some (Json.obj [("id", idJ), ("priority", pJ),
                        ("geometry", Json.obj [("type", .str "Feature"),
                          ("geometry", geometry)])]))
                  else .ok none
                else .ok none
              | some _ => .ok none
              | none =>
                if 1 < ([] : List Json).length then .ok none else .ok none)
           else .ok none
         | _ => .ok none)
      | _ => .ok none)
    let rest' ← validateRoutesList rest
    .ok (match keep? with
      | some k => k :: rest'
      | none => rest')

/-- The parameters computed by the traffic transformer before the final
validated objects are assembled. -/
structure TrafficParams where
  active_routes : Nat
  incidents_len : Nat
  coverage : ℚ
  map_specs : List (ℤ × String × ℚ × ℚ)
  valid_routes : List Json

/-- All fallible preliminary computation of `_transform_traffic_data`
(lines 335-601), in source order. -/
def trafficParams (env : PyEnv) (data : Json) : Except String TrafficParams := do
  let std ← standardize_traffic_data env data
  let incidentsList ← pyGetD std.1 "incidents" (.arr [])
  let roadClosures ← pyGetD std.1 "roadClosures" (.arr [])
  let _ ← checkRoutePoints std.2
  let nInc ← pyLen incidentsList
  let nCls ← pyLen roadClosures
  let speedJ ← pyGetD std.1 "speed" (.num 0)
  let speed ← pyFloat speedJ
  let specs ← mapIncidentsPart data
  let routesJ ← routesPart data
  let routeItems ← pyIter routesJ
  let vr ← validateRoutesList routeItems
  .ok ⟨max 1 (nInc + nCls), nInc, min 100 (max 0 ((speed / 50) * 100)), specs, vr⟩

/-- The fixed priority zones (lines 611-615). -/
def defaultZones : List (String × ℚ × String) :=
  [("Highway Network", (80, "success")), ("Emergency Routes", (70, "warning")),
    ("Commercial", (60, "danger"))]

/-- Synthetic efficiency scores (lines 607-610): `Route i+1 ↦ min(85 - i*5, 100)`. -/
def effScores (n : Nat) : List (String × ℚ) :=
  (List.range n).map (fun i => ("Route " ++ Nat.repr (i + 1), min (85 - (i : ℚ) * 5) 100))

/-- Synthetic fleet (lines 618-629): one vehicle per active route, `High`
priority for the first `incidents_len`. -/
def mkFleetVehicles (active nInc : Nat) : List VehicleStatus :=
  (List.range active).map (fun i =>
    ⟨"Truck " ++ Nat.repr (i + 1), "Active", "success", "Zone " ++ Nat.repr (i + 1),
      if i < nInc then "High" else "Medium"⟩)

/-- `MapRoute` construction over the validated route dicts (lines 632-639),
with positional defaults `route{i+1}` / `i+1`. -/
def buildMapRoutes (i : Nat) : List Json → Except String (List MapRoute)
  | [] => .ok []
  | r :: rest => do
    let idJ ← pyGetD r "id" (.str ("route" ++ Nat.repr (i + 1)))
    let idS ← pyStrCoerce idJ
    let pJ ← pyGetD r "priority" (.num ((i : ℚ) + 1))
    let p ← pyIntCoerce pJ
    let g ← pyGetItem r "geometry"
    let mr ← mkMapRoute idS p g
    let rest' ← buildMapRoutes (i + 1) rest
    .ok (mr :: rest')

/-- `MapIncident` construction over the collected specs (lines 640-648). -/
def buildMapIncidents : List (ℤ × String × ℚ × ℚ) → Except String (List MapIncident)
  | [] => .ok []
  | (t, d, lat, lon) :: rest => do
    let mi ← mkMapIncident t d lon lat
    let rest' ← buildMapIncidents rest
    .ok (mi :: rest')

/-- `MapData` construction (lines 631-649). -/
def mkMapData (validRoutes : List Json) (specs : List (ℤ × String × ℚ × ℚ)) :
    Except String MapData := do
  let routes ← buildMapRoutes 0 validRoutes
  let incidents ← buildMapIncidents specs
  .ok ⟨routes, incidents⟩

/-- The dict returned by `_transform_traffic_data`: route data, fleet
data, and the optional map overlay (`none` models a missing `map_data`
key). -/
structure TrafficOut where
  route_data : RouteData
  fleet_data : FleetData
  map_data : Option MapData

/-- Assembly of the validated output objects (lines 603-655). -/
def assembleTraffic (p : TrafficParams) : Except String TrafficOut := do
  let rd ← mkRouteData p.active_routes p.coverage (effScores p.active_routes) defaultZones
  let md ← mkMapData p.valid_routes p.map_specs
  .ok ⟨rd, ⟨mkFleetVehicles p.active_routes p.incidents_len⟩, some md⟩

/-- The full fallible body of `_transform_traffic_data` for truthy input. -/
def trafficBody (env : PyEnv) (data : Json) : Except String TrafficOut :=
  trafficParams env data >>= assembleTraffic

/-- The default `RouteData` used on the empty-input and exception paths
(lines 273-282 and 660-668). -/
def defaultRouteData : RouteData := ⟨1, 75, [("Route 1", 85)], defaultZones⟩

/-- The default `FleetData` (lines 284-294 and 670-680). -/
def defaultFleetData : FleetData := ⟨[⟨"Truck 1", "Active", "success", "Zone 1", "High"⟩]⟩

/-- The default traffic output (empty map overlay). -/
def defaultTrafficOut : TrafficOut := ⟨defaultRouteData, defaultFleetData, some ⟨[], []⟩⟩

/-- `_transform_traffic_data` (lines 268-685).  A string input that fails
to re-parse returns raw dicts with no `map_data` key (lines 310-332),
modelled as `map_data = none` — `_run` then hits a `KeyError` and falls
back; that branch is unreachable from `_run`, whose inputs are parsed. -/
def transform_traffic_data (env : PyEnv) (td : Json) : TrafficOut :=
  if ¬ td.truthy then defaultTrafficOut
  else
    match td with
    | .str s =>
      match env.reparse s with
      | none => ⟨defaultRouteData, defaultFleetData, none⟩
      | some j =>
        match trafficBody env j with
        | .ok r => r
        | .error _ => defaultTrafficOut
    | _ =>
      match trafficBody env td with
      | .ok r => r
      | .error _ => defaultTrafficOut

/-! ### `_run` (lines 687-814): assembly and emission -/

/-- One chart dataset. -/
structure ChartDataset where
  label : String
  data : List ℚ
  borderColor : String
  fill : Bool
deriving DecidableEq, Repr

/-- The chart-series value emitted under `weather_chart_data`. -/
structure ChartData where
  labels : List String
  datasets : List ChartDataset
deriving DecidableEq, Repr

/-- One chart label (line 734): `time.split('T')[1].split('-')[0]` when the
time contains `T`, else the time itself. -/
def chartLabel (t : String) : String :=
  if strContains t "T" then (sSplitOn ((sSplitOn t "T").getD 1 "") "-").headD ""
  else t

/-- The chart built by `_run` (lines 733-749) from the transformed
forecast: labels, a temperature dataset and a snowfall dataset — and
nothing else (the zero-filled precipitation series of the weather
transformer is discarded there and never reaches `_run`). -/
def mkChart (forecast : List WeatherForecastEntry) : ChartData :=
  ⟨forecast.map (fun e => chartLabel e.time),
    [⟨"Temperature (°C)", forecast.map (fun e => e.temp), "#ff6384", false⟩,
     ⟨"Snowfall (cm)", forecast.map (fun e => e.snowfall), "#4bc0c0", false⟩]⟩

/-- The emitted document: `operational_data.dict()` plus
`weather_chart_data`. -/
structure OutputDoc where
  weather_data : WeatherData
  resource_data : ResourceData
  route_data : RouteData
  fleet_data : FleetData
  alerts_data : List WeatherAlert
  map_data : Option MapData
  weather_chart_data : ChartData

/-- The fallback document (lines 754-814): default sub-models, one
diagnostic weather alert, empty chart. -/
def fallbackDoc (e : String) : OutputDoc :=
  let w : WeatherData := ⟨0, "Error", 0, [],
    [⟨"warning", "Data validation error: " ++ e⟩]⟩
  let od := mkOperationalData w defaultResourceData defaultRouteData
    defaultFleetData ⟨[], []⟩
  ⟨od.weather_data, od.resource_data, od.route_data, od.fleet_data,
    od.alerts_data, od.map_data,
    ⟨[], [⟨"Temperature (°C)", [], "#ff6384", false⟩,
          ⟨"Snowfall (cm)", [], "#4bc0c0", false⟩]⟩⟩

/-- The `try` block of `_run` (lines 716-753): a missing `map_data` key
(string-input traffic fallback) raises `KeyError` and lands on the
fallback; otherwise `OperationalData` assembly is total and the chart is
derived from the transformed forecast. -/
def assembleDoc (w : WeatherData) (inv : ResourceData) (tr : TrafficOut) : OutputDoc :=
  match tr.map_data with
  | none => fallbackDoc "KeyError: map_data"
  | some md =>
    let od := mkOperationalData w inv tr.route_data tr.fleet_data md
    ⟨od.weather_data, od.resource_data, od.route_data, od.fleet_data,
      od.alerts_data, od.map_data, mkChart w.forecast⟩

/-- `_run` (lines 687-814): parse the four raw inputs in nested mode
(uncaught exceptions propagate), run the three transformers, assemble. -/
def run_pipeline (env : PyEnv) (weather fuel salt traffic : RawInput) :
    Except String OutputDoc := do
  let wj ← safe_parse_json env.reparse weather true
  let fj ← safe_parse_json env.reparse fuel true
  let sj ← safe_parse_json env.reparse salt true
  let tj ← safe_parse_json env.reparse traffic true
  .ok (assembleDoc (transform_weather_data env wj)
    (transform_inventory_data env fj sj) (transform_traffic_data env tj))

/-! ### JSON emission of the document (`json.dumps(result_dict, ...)`).
`weather_chart_data` is emitted by the source as a JSON-encoded string;
here it is kept as its structural JSON value. -/

/-- Alert dict. -/
def encodeAlert (a : WeatherAlert) : Json :=
  .obj [("level", .str a.level), ("message", .str a.message)]

/-- Forecast-entry dict. -/
def encodeForecastEntry (e : WeatherForecastEntry) : Json :=
  .obj [("time", .str e.time), ("snowfall", .num e.snowfall), ("temp", .num e.temp)]

/-- `weather_data` dict. -/
def encodeWeather (w : WeatherData) : Json :=
  .obj [("current_temp", .num w.current_temp),
    ("current_conditions", .str w.current_conditions),
    ("accumulation", .num w.accumulation),
    ("forecast", .arr (w.forecast.map encodeForecastEntry)),
    ("alerts", .arr (w.alerts.map encodeAlert))]

/-- Depot dict. -/
def encodeDepot (d : DepotStatus) : Json :=
  .obj [("name", .str d.name), ("status", .str d.status),
    ("status_color", .str d.status_color)]

/-- `resource_data` dict. -/
def encodeResource (r : ResourceData) : Json :=
  .obj [("salt_level", .num r.salt_level), ("fuel_level", .num r.fuel_level),
    ("depots", .arr (r.depots.map encodeDepot))]

/-- `route_data` dict. -/
def encodeRoute (rd : RouteData) : Json :=
  .obj [("active_routes", .num rd.active_routes),
    ("coverage", .num rd.coverage),
    ("efficiency_scores", .obj (rd.efficiency_scores.map (fun kv => (kv.1, Json.num kv.2)))),
    ("priority_zones", .obj (rd.priority_zones.map
      (fun kv => (kv.1, Json.arr [.num kv.2.1, .str kv.2.2]))))]

/-- Vehicle dict. -/
def encodeVehicle (v : VehicleStatus) : Json :=
  .obj [("id", .str v.id), ("status", .str v.status),
    ("status_color", .str v.status_color), ("region", .str v.region),
    ("priority", .str v.priority)]

/-- `fleet_data` dict. -/
def encodeFleet (f : FleetData) : Json :=
  .obj [("vehicles", .arr (f.vehicles.map encodeVehicle))]

/-- Map-incident dict. -/
def encodeIncident (i : MapIncident) : Json :=
  .obj [("type", .num i.type), ("description", .str i.description),
    ("longitude", .num i.longitude), ("latitude", .num i.latitude)]

/-- Map-route dict. -/
def encodeMapRoute (r : MapRoute) : Json :=
  .obj [("id", .str r.id), ("priority", .num r.priority), ("geometry", r.geometry)]

/-- `map_data` dict. -/
def encodeMap (m : MapData) : Json :=
  .obj [("routes", .arr (m.routes.map encodeMapRoute)),
    ("incidents", .arr (m.incidents.map encodeIncident))]

/-- Chart-dataset dict. -/
def encodeChartDataset (d : ChartDataset) : Json :=
  .obj [("label", .str d.label), ("data", .arr (d.data.map Json.num)),
    ("borderColor", .str d.borderColor), ("fill", .bool d.fill)]

/-- `weather_chart_data` value. -/
def encodeChart (c : ChartData) : Json :=
  .obj [("labels", .arr (c.labels.map Json.str)),
    ("datasets", .arr (c.datasets.map encodeChartDataset))]

/-- The complete emitted document. -/
def emitDoc (d : OutputDoc) : Json :=
  .obj [("weather_data", encodeWeather d.weather_data),
    ("resource_data", encodeResource d.resource_data),
    ("route_data", encodeRoute d.route_data),
    ("fleet_data", encodeFleet d.fleet_data),
    ("alerts_data", .arr (d.alerts_data.map encodeAlert)),
    ("map_data", match d.map_data with | none => .null | some m => encodeMap m),
    ("weather_chart_data", encodeChart d.weather_chart_data)]

/-! ### Concrete interpreter environment for instantiated runs

The oracle functions agree with CPython on every string the concrete
inputs below exercise: none of those strings is itself valid JSON, and
the only ISO-parseable time among them is the listed one. -/

/-- A concrete environment for the instantiated runs. -/
def testEnv : PyEnv :=
  ⟨fun _ => none, fun s => s = "2025-02-14T12:00:00+00:00",
    "2026-10-12", "2026-10-12T09:00:00", "2026-10-12T12:00:00"⟩

/-! ### General helper lemmas -/

/-- Bind on `Except.ok` steps. -/
@[simp] theorem okBind {α β : Type} (a : α) (f : α → Except String β) :
    (Except.ok a >>= f) = f a := rfl

/-- Bind on `Except.error` short-circuits. -/
@[simp] theorem errBind {α β : Type} (e : String) (f : α → Except String β) :
    (Except.error e >>= f : Except String β) = .error e := rfl

/-- Inversion of a successful bind. -/
theorem exceptBind_ok {α β : Type} {x : Except String α} {f : α → Except String β}
    {b : β} (h : (x >>= f) = .ok b) : ∃ a, x = .ok a ∧ f a = .ok b := by
  cases x with
  | ok a => exact ⟨a, rfl, h⟩
  | error e => simp at h

/-- `round1` keeps values inside `[0, 100]`. -/
theorem round1_bounds {q : ℚ} (h0 : 0 ≤ q) (h1 : q ≤ 100) :
    0 ≤ round1 q ∧ round1 q ≤ 100 := by
  have hflr : qRound (q * 10) = ⌊q * 10 + 1 / 2⌋ := by rw [qRound_eq_round, round_eq]
  have lo : (0 : ℤ) ≤ ⌊q * 10 + 1 / 2⌋ := Int.floor_nonneg.mpr (by linarith)
  have hi : ⌊q * 10 + 1 / 2⌋ ≤ 1000 := by
    have h' : q * 10 + 1 / 2 < ((1001 : ℤ) : ℚ) := by push_cast; linarith
    have := Int.floor_lt.mpr h'
    omega
  have lo' : (0 : ℚ) ≤ ((⌊q * 10 + 1 / 2⌋ : ℤ) : ℚ) := by exact_mod_cast lo
  have hi' : ((⌊q * 10 + 1 / 2⌋ : ℤ) : ℚ) ≤ 1000 := by exact_mod_cast hi
  unfold round1
  rw [hflr]
  constructor
  · exact div_nonneg lo' (by norm_num)
  · rw [div_le_iff₀ (by norm_num : (0 : ℚ) < 10)]
    linarith


/-! ### Inventory lemmas -/

/-- `validate_percentage` lands in `[0, 100]`. -/
theorem validate_percentage_mem (q : ℚ) :
    0 ≤ validate_percentage q ∧ validate_percentage q ≤ 100 := by
  unfold validate_percentage
  exact round1_bounds (le_min (le_max_right q 0) (by norm_num)) (min_le_right _ _)

/-- Decidable membership in `[0, 100]`. -/
def inPct (q : ℚ) : Bool := decide (0 ≤ q) && decide (q ≤ 100)

/-- `inPct` from the two inequalities. -/
theorem inPct_of {q : ℚ} (h0 : 0 ≤ q) (h1 : q ≤ 100) : inPct q = true := by
  simp [inPct, h0, h1]

/-- Both `ResourceData` levels in `[0, 100]`. -/
def resourcePctOk (r : ResourceData) : Bool := inPct r.salt_level && inPct r.fuel_level

/-- Coverage and all scores of a `RouteData` in `[0, 100]`. -/
def routeDataPctOk (rd : RouteData) : Bool :=
  inPct rd.coverage && rd.efficiency_scores.all (fun kv => inPct kv.2) &&
    rd.priority_zones.all (fun kv => inPct kv.2.1)

/-- The `sum/(sum*2)*100` formula collapses to 50 for positive sums. -/
theorem levelOf_eq (t : ℚ) : levelOf t = if 0 < t then 50 else 0 := by
  unfold levelOf
  by_cases h : 0 < t
  · have ht : t ≠ 0 := ne_of_gt h
    have h50 : t / (t * 2) * 100 = 50 := by field_simp; ring
    simp only [h, if_true, h50]
    norm_num
  · simp [h]

/-- `validate_percentage` fixes 0. -/
theorem vp_zero : validate_percentage 0 = 0 := by decide

/-- `validate_percentage` fixes 50. -/
theorem vp_fifty : validate_percentage 50 = 50 := by decide

/-- `levelOf` values lie in `[0, 100]`. -/
theorem levelOf_mem (t : ℚ) : 0 ≤ levelOf t ∧ levelOf t ≤ 100 := by
  rw [levelOf_eq]
  split <;> norm_num

/-- Successful `mkResourceData` yields the clamped levels verbatim. -/
theorem mkResourceData_ok {sl fl : ℚ} {ds : List DepotStatus} {r : ResourceData}
    (h : mkResourceData sl fl ds = .ok r) :
    r = ⟨validate_percentage sl, validate_percentage fl, ds⟩ := by
  unfold mkResourceData at h
  split at h
  · exact absurd h (by simp)
  · split at h
    · exact absurd h (by simp)
    · simp only [Except.ok.injEq] at h
      exact h.symm

/-- `mkResourceData` succeeds on in-range levels. -/
theorem mkResourceData_levels_ok (sl fl : ℚ) (ds : List DepotStatus)
    (h0 : 0 ≤ sl ∧ sl ≤ 100) (h1 : 0 ≤ fl ∧ fl ≤ 100) :
    mkResourceData sl fl ds = .ok ⟨validate_percentage sl, validate_percentage fl, ds⟩ := by
  unfold mkResourceData
  simp [h0.1, h0.2, h1.1, h1.2]

/-- Any successful inventory body yields levels that are exactly 0 or 50. -/
theorem invBody_ok_levels {env : PyEnv} {f s : Json} {r : ResourceData}
    (h : invBody env f s = .ok r) :
    (r.fuel_level = 0 ∨ r.fuel_level = 50) ∧ (r.salt_level = 0 ∨ r.salt_level = 50) := by
  unfold invBody at h
  obtain ⟨tf, htf, h⟩ := exceptBind_ok h
  obtain ⟨ts, hts, h⟩ := exceptBind_ok h
  have hr := mkResourceData_ok h
  subst hr
  simp only [levelOf_eq]
  refine ⟨?_, ?_⟩
  · by_cases h0 : 0 < tf
    · simp [h0, vp_fifty]
    · simp [h0, vp_zero]
  · by_cases h0 : 0 < ts
    · simp [h0, vp_fifty]
    · simp [h0, vp_zero]

/-- The inventory transformer always emits levels that are exactly 0 or 50. -/
theorem inventory_levels (env : PyEnv) (f s : Json) :
    ((transform_inventory_data env f s).fuel_level = 0 ∨
      (transform_inventory_data env f s).fuel_level = 50) ∧
    ((transform_inventory_data env f s).salt_level = 0 ∨
      (transform_inventory_data env f s).salt_level = 50) := by
  unfold transform_inventory_data
  split
  · exact ⟨Or.inr rfl, Or.inr rfl⟩
  · split
    · next r hok => exact invBody_ok_levels hok
    · exact ⟨Or.inr rfl, Or.inr rfl⟩

/-- With no raw fuel-quantity keys the fuel total is zero. -/
theorem totalFuel_no_raw {ffs : List (String × Json)}
    (h1 : jLookup ffs "diesel" = none) (h2 : jLookup ffs "gasoline" = none) :
    totalFuel (.obj ffs) = .ok 0 := by
  simp [totalFuel, pyGetD, Json.getD, Json.lookup, h1, h2, pyFloat]

/-- With no raw salt-quantity keys the salt total is zero. -/
theorem totalSalt_no_raw {sfs : List (String × Json)}
    (h3 : jLookup sfs "rockSalt" = none) (h4 : jLookup sfs "treatedSalt" = none) :
    totalSalt (.obj sfs) = .ok 0 := by
  simp [totalSalt, pyGetD, Json.getD, Json.lookup, h3, h4, pyFloat]

/-- Truthy object inputs with known totals: the transformer's result. -/
theorem transform_inventory_of_totals (env : PyEnv) (ffs sfs : List (String × Json))
    (tf ts : ℚ)
    (hft : Json.truthy (.obj ffs) = true) (hst : Json.truthy (.obj sfs) = true)
    (htf : totalFuel (.obj ffs) = .ok tf) (hts : totalSalt (.obj sfs) = .ok ts) :
    transform_inventory_data env (.obj ffs) (.obj sfs) =
      ⟨validate_percentage (levelOf ts), validate_percentage (levelOf tf),
        [⟨"Main Depot",
          if 30 < levelOf ts ∧ 30 < levelOf tf then "Operational" else "Low Stock",
          if 30 < levelOf ts ∧ 30 < levelOf tf then "success" else "warning"⟩]⟩ := by
  have hinv : invBody env (Json.obj ffs) (Json.obj sfs) =
      .ok ⟨validate_percentage (levelOf ts), validate_percentage (levelOf tf),
        [⟨"Main Depot",
          if 30 < levelOf ts ∧ 30 < levelOf tf then "Operational" else "Low Stock",
          if 30 < levelOf ts ∧ 30 < levelOf tf then "success" else "warning"⟩]⟩ := by
    unfold invBody resolveInvInput
    dsimp only
    rw [htf, hts]
    simp only [okBind]
    exact mkResourceData_levels_ok _ _ _ (levelOf_mem ts) (levelOf_mem tf)
  unfold transform_inventory_data
  rw [hinv]
  simp [hft, hst]

/-- C1 (amended): the Inventory Transformer never reads pre-computed
`fuel_level`/`salt_level` keys: for every pair of truthy object inputs
carrying none of the raw-quantity keys (`diesel`, `gasoline`,
`rockSalt`, `treatedSalt`), both output levels are 0.0 — not the
supplied percentages — and the depot reads Low Stock. -/
theorem C1_inventory_ignores_precomputed (env : PyEnv) (ffs sfs : List (String × Json))
    (hft : Json.truthy (.obj ffs) = true) (hst : Json.truthy (.obj sfs) = true)
    (h1 : jLookup ffs "diesel" = none) (h2 : jLookup ffs "gasoline" = none)
    (h3 : jLookup sfs "rockSalt" = none) (h4 : jLookup sfs "treatedSalt" = none) :
    transform_inventory_data env (.obj ffs) (.obj sfs) =
      ⟨0, 0, [⟨"Main Depot", "Low Stock", "warning"⟩]⟩ := by
  have h := transform_inventory_of_totals env ffs sfs 0 0 hft hst
    (totalFuel_no_raw h1 h2) (totalSalt_no_raw h3 h4)
  rw [h]
  have hl : levelOf 0 = 0 := by rw [levelOf_eq]; norm_num
  rw [hl]
  have hc : ¬ ((30 : ℚ) < 0 ∧ (30 : ℚ) < 0) := by norm_num
  simp [hc, vp_zero]

/-- C1 witness: the amended theorem applied at the claim's own example
inputs, `fuel = {"fuel_level": 60.0}` and `salt = {"salt_level": 75.0}`. -/
theorem C1_inventory_ignores_precomputed_witness :
    (transform_inventory_data testEnv (.obj [("fuel_level", .num 60)])
      (.obj [("salt_level", .num 75)])).fuel_level = 0 ∧
    (transform_inventory_data testEnv (.obj [("fuel_level", .num 60)])
      (.obj [("salt_level", .num 75)])).salt_level = 0 := by
  have h := C1_inventory_ignores_precomputed testEnv
    [("fuel_level", Json.num 60)] [("salt_level", Json.num 75)] rfl rfl rfl rfl rfl rfl
  exact ⟨by rw [h], by rw [h]⟩

/-- C1 counterexample: on `fuel = {"fuel_level": 60.0}`,
`salt = {"salt_level": 75.0}` the claim demands output levels 60.0 and
75.0; the transformer returns 0.0 for both (with a Low Stock depot), so
the percentages are not carried through. -/
theorem C1_precomputed_levels_not_carried :
    transform_inventory_data testEnv (.obj [("fuel_level", .num 60)])
      (.obj [("salt_level", .num 75)]) =
      ⟨0, 0, [⟨"Main Depot", "Low Stock", "warning"⟩]⟩ ∧
    (0 : ℚ) ≠ 60 ∧ (0 : ℚ) ≠ 75 :=
  ⟨rfl, by norm_num, by norm_num⟩

/-- C6: on a string that parses to a non-object JSON value,
`safe_parse_json` raises `AttributeError` in nested mode (the uncaught
`data.items()` call) instead of returning a mapping, and in plain mode
returns the non-mapping value itself — against its documented
always-a-dict, never-throws contract. -/
theorem C6_safe_parse_json_nonobject_raises :
    safe_parse_json testEnv.reparse (.parsed (.arr [.num 1, .num 2])) true =
      .error "AttributeError: items" ∧
    safe_parse_json testEnv.reparse (.parsed (.num 3)) false = .ok (.num 3) :=
  ⟨rfl, rfl⟩

/-- C10: the inventory output levels are each exactly 0 or 50 for all
inputs; every falsy input yields the 50.0/50.0 default; and on truthy
object inputs with raw-quantity sums `tf` and `ts` the levels are 50
exactly when the sum is positive and 0 otherwise — the magnitude of the
inputs never reaches the output. -/
theorem C10_inventory_levels_binary (env : PyEnv) (ffs sfs : List (String × Json))
    (tf ts : ℚ)
    (hft : Json.truthy (.obj ffs) = true) (hst : Json.truthy (.obj sfs) = true)
    (htf : totalFuel (.obj ffs) = .ok tf) (hts : totalSalt (.obj sfs) = .ok ts) :
    (∀ f s : Json,
      ((transform_inventory_data env f s).fuel_level = 0 ∨
        (transform_inventory_data env f s).fuel_level = 50) ∧
      ((transform_inventory_data env f s).salt_level = 0 ∨
        (transform_inventory_data env f s).salt_level = 50)) ∧
    (∀ f s : Json, ¬ (f.truthy = true ∧ s.truthy = true) →
      transform_inventory_data env f s = defaultResourceData) ∧
    (∀ (f s : Json) (e : String), invBody env f s = .error e →
      transform_inventory_data env f s = defaultResourceData) ∧
    (transform_inventory_data env (.obj ffs) (.obj sfs)).fuel_level =
      (if 0 < tf then 50 else 0) ∧
    (transform_inventory_data env (.obj ffs) (.obj sfs)).salt_level =
      (if 0 < ts then 50 else 0) := by
  have h := transform_inventory_of_totals env ffs sfs tf ts hft hst htf hts
  refine ⟨fun f s => inventory_levels env f s, ?_, ?_, ?_, ?_⟩
  · intro f s hfs
    unfold transform_inventory_data
    simp [hfs]
  · intro f s e he
    unfold transform_inventory_data
    rw [he]
    split
    · rfl
    · rfl
  · rw [h]
    simp only [levelOf_eq]
    by_cases h0 : 0 < tf
    · simp [h0, vp_fifty]
    · simp [h0, vp_zero]
  · rw [h]
    simp only [levelOf_eq]
    by_cases h0 : 0 < ts
    · simp [h0, vp_fifty]
    · simp [h0, vp_zero]

/-- C10 witness: a positive fuel sum of 800 litres and a zero salt sum
give levels 50 and 0 via the main theorem. -/
theorem C10_inventory_levels_binary_witness :
    (transform_inventory_data testEnv (.obj [("diesel", .num 800)])
      (.obj [("rockSalt", .num 0)])).fuel_level = 50 ∧
    (transform_inventory_data testEnv (.obj [("diesel", .num 800)])
      (.obj [("rockSalt", .num 0)])).salt_level = 0 := by
  have h := C10_inventory_levels_binary testEnv
    [("diesel", Json.num 800)] [("rockSalt", Json.num 0)] 800 0 rfl rfl rfl rfl
  refine ⟨h.2.2.2.1.trans (by norm_num), h.2.2.2.2.trans (by norm_num)⟩

/-! ### Traffic lemmas -/

/-- Successful `mkRouteData` inversion. -/
theorem mkRouteData_ok {a : Nat} {c : ℚ} {sc : List (String × ℚ)}
    {z : List (String × ℚ × String)} {rd : RouteData}
    (h : mkRouteData a c sc z = .ok rd) :
    rd = ⟨a, c, validate_efficiency_scores sc, z⟩ ∧
      (0 ≤ c ∧ c ≤ 100) ∧ z.all zoneOk = true := by
  unfold mkRouteData at h
  split at h
  · exact absurd h (by simp)
  · next hc =>
    split at h
    · exact absurd h (by simp)
    · next hz =>
      simp only [Except.ok.injEq] at h
      refine ⟨h.symm, by push_neg at hc; exact hc, by simpa using hz⟩


/-- Every clamped efficiency score is a percentage. -/
theorem validate_efficiency_scores_pct (sc : List (String × ℚ)) :
    (validate_efficiency_scores sc).all (fun kv => inPct kv.2) = true := by
  unfold validate_efficiency_scores
  rw [List.all_map]
  apply List.all_eq_true.mpr
  intro x _
  exact inPct_of (validate_percentage_mem x.2).1 (validate_percentage_mem x.2).2

/-- Zone validation implies the score range. -/
theorem zones_all_pct {z : List (String × ℚ × String)} (hz : z.all zoneOk = true) :
    z.all (fun kv => inPct kv.2.1) = true := by
  apply List.all_eq_true.mpr
  intro x hx
  have := List.all_eq_true.mp hz x hx
  unfold zoneOk at this
  simp only [Bool.and_eq_true, decide_eq_true_eq] at this
  exact inPct_of this.1.1 this.1.2

/-- A successful `mkRouteData` satisfies all percentage bounds. -/
theorem mkRouteData_ok_pct {a : Nat} {c : ℚ} {sc : List (String × ℚ)}
    {z : List (String × ℚ × String)} {rd : RouteData}
    (h : mkRouteData a c sc z = .ok rd) : routeDataPctOk rd = true := by
  obtain ⟨hrd, hc, hz⟩ := mkRouteData_ok h
  subst hrd
  unfold routeDataPctOk
  simp [inPct_of hc.1 hc.2, validate_efficiency_scores_pct, zones_all_pct hz]

/-- Successful `assembleTraffic` inversion. -/
theorem assembleTraffic_ok {p : TrafficParams} {r : TrafficOut}
    (h : assembleTraffic p = .ok r) :
    ∃ rd md,
      mkRouteData p.active_routes p.coverage (effScores p.active_routes) defaultZones =
        .ok rd ∧
      mkMapData p.valid_routes p.map_specs = .ok md ∧
      r = ⟨rd, ⟨mkFleetVehicles p.active_routes p.incidents_len⟩, some md⟩ := by
  unfold assembleTraffic at h
  obtain ⟨rd, hrd, h⟩ := exceptBind_ok h
  obtain ⟨md, hmd, h⟩ := exceptBind_ok h
  simp only [Except.ok.injEq] at h
  exact ⟨rd, md, hrd, hmd, h.symm⟩

/-- Successful `trafficBody` inversion. -/
theorem trafficBody_ok {env : PyEnv} {j : Json} {r : TrafficOut}
    (h : trafficBody env j = .ok r) :
    ∃ p, trafficParams env j = .ok p ∧ assembleTraffic p = .ok r := by
  unfold trafficBody at h
  exact exceptBind_ok h

/-- A successful traffic body produces in-range route metrics. -/
theorem trafficBody_ok_pct {env : PyEnv} {j : Json} {r : TrafficOut}
    (h : trafficBody env j = .ok r) : routeDataPctOk r.route_data = true := by
  obtain ⟨p, _, ha⟩ := trafficBody_ok h
  obtain ⟨rd, md, hrd, _, hr⟩ := assembleTraffic_ok ha
  subst hr
  exact mkRouteData_ok_pct hrd

/-- The traffic transformer always produces in-range route metrics. -/
theorem traffic_route_pct (env : PyEnv) (td : Json) :
    routeDataPctOk ((transform_traffic_data env td).route_data) = true := by
  unfold transform_traffic_data
  split
  · decide
  · split
    · split
      · decide
      · split
        · next r hok => exact trafficBody_ok_pct hok
        · decide
    · split
      · next r hok => exact trafficBody_ok_pct hok
      · decide

/-- The inventory transformer always emits in-range levels. -/
theorem inventory_pct (env : PyEnv) (fuel salt : Json) :
    resourcePctOk (transform_inventory_data env fuel salt) = true := by
  obtain ⟨hf, hs⟩ := inventory_levels env fuel salt
  unfold resourcePctOk
  rcases hf with h | h <;> rcases hs with h' | h' <;> rw [h, h'] <;> decide

/-! ### Geometry-validity lemmas (C3) -/

/-- A successful `mkMapRoute` carries validator-approved geometry. -/
theorem mkMapRoute_ok_valid {i : String} {p : ℤ} {g : Json} {mr : MapRoute}
    (h : mkMapRoute i p g = .ok mr) : validate_geometry mr.geometry = true := by
  unfold mkMapRoute at h
  split at h
  · exact absurd h (by simp)
  · split at h
    · exact absurd h (by simp)
    · split at h
      · exact absurd h (by simp)
      · next hg =>
        simp only [Except.ok.injEq] at h
        rw [← h]
        simpa using hg

/-- All routes built by `buildMapRoutes` carry valid geometry. -/
theorem buildMapRoutes_valid :
    ∀ (rs : List Json) (i : Nat) (l : List MapRoute),
      buildMapRoutes i rs = .ok l →
      l.all (fun r => validate_geometry r.geometry) = true := by
  intro rs
  induction rs with
  | nil =>
    intro i l h
    simp only [buildMapRoutes, Except.ok.injEq] at h
    subst h
    rfl
  | cons r rest ih =>
    intro i l h
    unfold buildMapRoutes at h
    obtain ⟨idJ, _, h⟩ := exceptBind_ok h
    obtain ⟨idS, _, h⟩ := exceptBind_ok h
    obtain ⟨pJ, _, h⟩ := exceptBind_ok h
    obtain ⟨p, _, h⟩ := exceptBind_ok h
    obtain ⟨g, _, h⟩ := exceptBind_ok h
    obtain ⟨mr, hmr, h⟩ := exceptBind_ok h
    obtain ⟨rest', hrest, h⟩ := exceptBind_ok h
    simp only [Except.ok.injEq] at h
    subst h
    simp only [List.all_cons, Bool.and_eq_true]
    exact ⟨mkMapRoute_ok_valid hmr, ih (i + 1) rest' hrest⟩

/-- A successful `mkMapData` contains only validator-approved routes. -/
theorem mkMapData_ok_valid {vr : List Json} {specs : List (ℤ × String × ℚ × ℚ)}
    {md : MapData} (h : mkMapData vr specs = .ok md) :
    md.routes.all (fun r => validate_geometry r.geometry) = true := by
  unfold mkMapData at h
  obtain ⟨routes, hroutes, h⟩ := exceptBind_ok h
  obtain ⟨incidents, _, h⟩ := exceptBind_ok h
  simp only [Except.ok.injEq] at h
  subst h
  exact buildMapRoutes_valid vr 0 routes hroutes

/-- Every route in the emitted map overlay has validator-approved
geometry (the overlay may also be absent). -/
def mapRoutesValid (out : TrafficOut) : Bool :=
  match out.map_data with
  | none => true
  | some md => md.routes.all (fun r => validate_geometry r.geometry)

/-- A successful traffic body emits only valid geometry. -/
theorem trafficBody_ok_valid {env : PyEnv} {j : Json} {r : TrafficOut}
    (h : trafficBody env j = .ok r) : mapRoutesValid r = true := by
  obtain ⟨p, _, ha⟩ := trafficBody_ok h
  obtain ⟨rd, md, _, hmd, hr⟩ := assembleTraffic_ok ha
  subst hr
  unfold mapRoutesValid
  exact mkMapData_ok_valid hmd

/-- C3 (amended): the traffic transformer never propagates a geometry
error; it silently filters malformed routes, and every route that does
reach the emitted overlay has validator-approved geometry, for every
input. -/
theorem C3_geometry_filtered_not_fatal (env : PyEnv) (td : Json) :
    mapRoutesValid (transform_traffic_data env td) = true := by
  unfold transform_traffic_data
  split
  · rfl
  · split
    · split
      · rfl
      · split
        · next r hok => exact trafficBody_ok_valid hok
        · rfl
    · split
      · next r hok => exact trafficBody_ok_valid hok
      · rfl

/-! ### C8: coverage and active-route formulas -/

/-- A traffic input in the direct `currentTrafficFlow` shape. -/
def ctfInput (s : ℚ) (incs cls : List Json) : Json :=
  .obj [("currentTrafficFlow",
    .obj [("speed", .num s), ("incidents", .arr incs), ("roadClosures", .arr cls)])]

set_option maxHeartbeats 2000000 in
/-- Parameter computation on the direct shape. -/
theorem trafficParams_ctf (env : PyEnv) (s : ℚ) (incs cls : List Json) :
    trafficParams env (ctfInput s incs cls) =
      .ok ⟨max 1 (incs.length + cls.length), incs.length,
        min 100 (max 0 ((s / 50) * 100)),
        incs.filterMap incidentSpec? ++ cls.filterMap closureSpec?, []⟩ := by
  rcases incs with _ | ⟨i0, irest⟩ <;> rcases cls with _ | ⟨c0, crest⟩ <;>
    simp [ctfInput, trafficParams, standardize_traffic_data, pyIn, pyGetD, pyGetItem,
      Json.getD, Json.lookup, jLookup, checkRoutePoints, checkRoutePointsList, pyIter,
      pyLen, pyFloat, mapIncidentsPart, routesPart, scanForFlow, scanForRoutes,
      Json.truthy, validateRoutesList, okBind, Option.getD]

/-- C8 (amended): on a recognized `currentTrafficFlow` carrying numeric
speed `s`, an incident list of length `m` and a closure list of length
`n`, whenever the transform completes without an exception it outputs
`active_routes = max 1 (m + n)` and `coverage = clamp((s/50)*100, 0,
100)`; when any later stage of the body raises instead (e.g. an
incident string whose description parses empty, failing `MapIncident`
validation), these computed metrics are discarded and the fixed default
(1 route, 75% coverage) is returned. -/
theorem C8_traffic_formulas (env : PyEnv) (s : ℚ) (incs cls : List Json)
    (hok : (trafficBody env (ctfInput s incs cls)).isOk = true) :
    ((trafficBody env (ctfInput s incs cls)).map (fun r => r.route_data.active_routes) =
      .ok (max 1 (incs.length + cls.length)) ∧
    (trafficBody env (ctfInput s incs cls)).map (fun r => r.route_data.coverage) =
      .ok (min 100 (max 0 ((s / 50) * 100)))) ∧
    (∀ (s' : ℚ) (incs' cls' : List Json) (e : String),
      trafficBody env (ctfInput s' incs' cls') = .error e →
      transform_traffic_data env (ctfInput s' incs' cls') = defaultTrafficOut) := by
  have hdef : ∀ (s' : ℚ) (incs' cls' : List Json) (e : String),
      trafficBody env (ctfInput s' incs' cls') = .error e →
      transform_traffic_data env (ctfInput s' incs' cls') = defaultTrafficOut := by
    intro s' incs' cls' e he
    have hr : transform_traffic_data env (ctfInput s' incs' cls') =
        (match trafficBody env (ctfInput s' incs' cls') with
          | .ok r => r
          | .error _ => defaultTrafficOut) := rfl
    rw [hr, he]
  have hb : trafficBody env (ctfInput s incs cls) =
      assembleTraffic ⟨max 1 (incs.length + cls.length), incs.length,
        min 100 (max 0 ((s / 50) * 100)),
        incs.filterMap incidentSpec? ++ cls.filterMap closureSpec?, []⟩ := by
    unfold trafficBody
    rw [trafficParams_ctf, okBind]
  rw [hb] at hok
  rw [hb]
  cases ha : assembleTraffic ⟨max 1 (incs.length + cls.length), incs.length,
      min 100 (max 0 ((s / 50) * 100)),
      incs.filterMap incidentSpec? ++ cls.filterMap closureSpec?, []⟩ with
  | error e =>
    rw [ha] at hok
    simp [Except.isOk, Except.toBool] at hok
  | ok r =>
    obtain ⟨rd, md, hrd, hmd, hr⟩ := assembleTraffic_ok ha
    obtain ⟨hrdEq, -, -⟩ := mkRouteData_ok hrd
    subst hr
    refine ⟨⟨?_, ?_⟩, hdef⟩ <;> simp [Except.map, hrdEq]

/-- C8 witness: speed 25 km/h and empty incident/closure lists give one
active route and 50% coverage. -/
theorem C8_traffic_formulas_witness :
    (trafficBody testEnv (ctfInput 25 [] [])).map (fun r => r.route_data.active_routes) =
      .ok 1 ∧
    (trafficBody testEnv (ctfInput 25 [] [])).map (fun r => r.route_data.coverage) =
      .ok 50 := by
  have h := C8_traffic_formulas testEnv 25 [] [] rfl
  exact ⟨h.1.1.trans (by norm_num), h.1.2.trans (by norm_num)⟩

/-- C8 counterexample: the original claim fails without a success
proviso.  A recognized `currentTrafficFlow` with speed 25 and the
single incident `" at 45, 90"` (which splits to an empty description at
valid coordinates) makes `MapIncident` validation raise inside the
body; the catch-all `except` then returns the fixed default, so the
output coverage is 75.0 and not the claimed `clamp((25/50)*100) = 50`. -/
theorem C8_incident_parse_failure_defaults_cex :
    transform_traffic_data testEnv (ctfInput 25 [.str " at 45, 90"] []) =
      defaultTrafficOut ∧
    (trafficBody testEnv (ctfInput 25 [.str " at 45, 90"] [])).isOk = false ∧
    defaultTrafficOut.route_data.coverage = 75 ∧
    defaultTrafficOut.route_data.active_routes = 1 ∧
    min 100 (max 0 (((25 : ℚ) / 50) * 100)) = 50 ∧ (75 : ℚ) ≠ 50 := by
  exact ⟨rfl, rfl, rfl, rfl, by norm_num, by norm_num⟩

/-! ### Concrete inputs for counterexamples -/

/-- A well-formed flat weather payload carrying one upstream info alert
and a one-entry forecast. -/
def weatherEx : Json :=
  .obj [("current_temp", .num (-5)), ("current_conditions", .str "Icy"),
    ("accumulation", .num 0),
    ("forecast", .arr [.obj [("time", .str "2025-02-14T12:00:00Z"),
      ("snowfall", .num 2), ("temp", .num (-3))]]),
    ("alerts", .arr [.obj [("level", .str "info"), ("message", .str "Storm watch")]])]

/-- A route whose geometry has the out-of-range coordinate `[200, 46.8]`. -/
def badRoute : Json :=
  .obj [("geometry", .obj [("type", .str "Feature"),
    ("geometry", .obj [("type", .str "LineString"),
      ("coordinates", .arr [.arr [.num 200, .num 46.8], .arr [.num 10, .num 46.8]])])])]

/-- A traffic payload carrying the malformed route. -/
def trafficBad : Json :=
  .obj [("currentTrafficFlow", .obj [("speed", .num 25)]), ("routes", .arr [badRoute])]

/-- C3 counterexample: feeding the pipeline a route with longitude 200,
the run returns successfully (no geometry error reaches the caller) and
the emitted overlay is simply empty — the malformed route was silently
dropped. -/
theorem C3_bad_geometry_not_fatal_cex :
    (run_pipeline testEnv .blank .blank .blank (.parsed trafficBad)).map
      (fun d => d.map_data) = .ok (some ⟨[], []⟩) := rfl

/-! ### C4: the nested weather shape -/

/-- C4 (amended): `standardize_weather_data` only recognizes the
`currentConditions` / `current_conditions` shapes; any truthy weather
object without those keys (and without flat `forecast`/`alerts` keys) —
in particular the nested `current_weather_conditions` shape — falls
through to the 0.0 / "No data" / empty defaults instead of being
mapped. -/
theorem C4_nested_shape_not_detected (env : PyEnv) (fs : List (String × Json))
    (ht : Json.truthy (.obj fs) = true)
    (h1 : jLookup fs "currentConditions" = none)
    (h2 : jLookup fs "current_conditions" = none)
    (h3 : jLookup fs "forecast" = none)
    (h4 : jLookup fs "alerts" = none) :
    transform_weather_data env (.obj fs) = noDataWeather := by
  have hbody : weatherBody env (.obj fs) = .ok noDataWeather := by
    unfold weatherBody weatherCC weatherForecastPart weatherAlertsCheck
    simp [pyIn, pyGetD, pyGetItem, Json.getD, Json.lookup, h1, h2, h3, h4, pyIter,
      stdForecastList, stdAlertsCheck, mkForecastEntries, mkAlertList, pyFloat, pyStr,
      mkWeatherData, noDataWeather, okBind, jLookup, Option.getD]
  unfold transform_weather_data
  rw [hbody]
  simp [ht]

/-- C4 witness: the amended theorem at a concrete nested-shape payload. -/
theorem C4_nested_shape_not_detected_witness :
    (transform_weather_data testEnv (.obj [("current_weather_conditions",
      .obj [("temperature", .num (-5)), ("snow_alert", .str "Heavy snow warning"),
        ("current_snow_amount", .num 12),
        ("snowfall_predictions", .arr [])])])).current_conditions = "No data" := by
  have h := C4_nested_shape_not_detected testEnv
    [("current_weather_conditions", Json.obj [("temperature", Json.num (-5)),
      ("snow_alert", Json.str "Heavy snow warning"),
      ("current_snow_amount", Json.num 12),
      ("snowfall_predictions", Json.arr [])])] rfl rfl rfl rfl rfl
  rw [h]
  rfl

/-- C4 counterexample: a nested payload with temperature −5 and snow
amount 12 is not mapped into the snapshot: the transformer returns the
0.0 / "No data" defaults, so `current_temp ≠ -5` and `accumulation ≠ 12`. -/
theorem C4_nested_shape_defaults_cex :
    transform_weather_data testEnv (.obj [("current_weather_conditions",
      .obj [("temperature", .num (-5)), ("snow_alert", .str "Heavy snow warning"),
        ("current_snow_amount", .num 12), ("snowfall_predictions", .arr [])])]) =
      noDataWeather ∧
    noDataWeather.current_temp = 0 ∧ noDataWeather.accumulation = 0 ∧
    ((0 : ℚ) ≠ -5 ∧ (0 : ℚ) ≠ 12) :=
  ⟨rfl, rfl, rfl, by norm_num, by norm_num⟩

/-! ### Run-level lemmas (C2, C5, C7) -/

/-- Every successful run emits a document assembled by `assembleDoc`. -/
theorem run_pipeline_ok_doc {env : PyEnv} {w f s t : RawInput} {d : OutputDoc}
    (h : run_pipeline env w f s t = .ok d) :
    ∃ wj fj sj tj,
      d = assembleDoc (transform_weather_data env wj)
        (transform_inventory_data env fj sj) (transform_traffic_data env tj) := by
  unfold run_pipeline at h
  obtain ⟨wj, _, h⟩ := exceptBind_ok h
  obtain ⟨fj, _, h⟩ := exceptBind_ok h
  obtain ⟨sj, _, h⟩ := exceptBind_ok h
  obtain ⟨tj, _, h⟩ := exceptBind_ok h
  simp only [Except.ok.injEq] at h
  exact ⟨wj, fj, sj, tj, h.symm⟩

/-- On either assembly path the emitted `alerts_data` is exactly the
validator's derived list, seeded with the empty upstream list. -/
theorem assembleDoc_alerts (w : WeatherData) (inv : ResourceData) (tr : TrafficOut) :
    (assembleDoc w inv tr).alerts_data =
      validate_and_enhance_alerts [] (assembleDoc w inv tr).resource_data
        (assembleDoc w inv tr).weather_data := by
  unfold assembleDoc
  cases tr.map_data <;> rfl

/-- The emitted alerts are exactly the threshold-derived ones computed
from the document's own resource and weather data. -/
def alertsWellFormed (doc : OutputDoc) : Bool :=
  decide (doc.alerts_data =
    validate_and_enhance_alerts [] doc.resource_data doc.weather_data)

/-- C2 (amended): the assembled document's `alerts_data` never contains
the upstream weather alerts — the pipeline passes an empty seed list —
and consists solely of the threshold alerts: a salt warning iff
`salt_level < 30`, a fuel warning iff `fuel_level < 30`, a danger alert
iff `accumulation > 20`, a cold warning iff `current_temp < -20`, in
that order; in particular at `salt_level = 20, fuel_level = 60` the
validator emits exactly one warning mentioning Salt and no Fuel entry
(and never an info-level inventory alert). -/
theorem C2_alerts_derived_only (env : PyEnv) (w f s t : RawInput)
    (hok : (run_pipeline env w f s t).isOk = true) :
    (run_pipeline env w f s t).map alertsWellFormed = .ok true ∧
    validate_and_enhance_alerts [] ⟨20, 60, []⟩ noDataWeather =
      [⟨"warning", "Salt inventory critical at 20.0%"⟩] ∧
    strContains "Salt inventory critical at 20.0%" "Salt" = true ∧
    ([⟨"warning", "Salt inventory critical at 20.0%"⟩] : List WeatherAlert).all
      (fun a => !(strContains a.message "Fuel")) = true := by
  refine ⟨?_, rfl, rfl, rfl⟩
  cases hr : run_pipeline env w f s t with
  | error e =>
    rw [hr] at hok
    simp [Except.isOk, Except.toBool] at hok
  | ok d =>
    obtain ⟨wj, fj, sj, tj, hd⟩ := run_pipeline_ok_doc hr
    subst hd
    simp [Except.map, alertsWellFormed, assembleDoc_alerts]

/-- C2 witness: the run on four empty inputs satisfies the derived-only
alert property (its alert list is in fact empty: both levels are 50). -/
theorem C2_alerts_derived_only_witness :
    (run_pipeline testEnv .blank .blank .blank .blank).map alertsWellFormed =
      .ok true :=
  (C2_alerts_derived_only testEnv .blank .blank .blank .blank rfl).1

/-- C2 counterexample: with an upstream info alert in the weather input
and default 50/50 inventory, the claim demands `alerts_data` to start
with the upstream alert and carry info-level salt and fuel entries; the
emitted `alerts_data` is empty while the upstream alert sits only under
`weather_data.alerts`. -/
theorem C2_upstream_alerts_not_concatenated_cex :
    (run_pipeline testEnv (.parsed weatherEx) .blank .blank .blank).map
      (fun d => (d.alerts_data, d.weather_data.alerts, d.resource_data.salt_level,
        d.resource_data.fuel_level)) =
      .ok ([], [⟨"info", "Storm watch"⟩], 50, 50) := rfl

/-! ### C5: empty-input safety -/

/-- An input that cannot trip the nested-mode `AttributeError`: absent,
empty, malformed, or parsed to a JSON object. -/
def RawInput.benign : RawInput → Bool
  | .parsed (.obj _) => true
  | .parsed _ => false
  | _ => true

/-- The five keys the renderer requires are present in a document. -/
def docHasAllKeys (j : Json) : Bool :=
  ["weather_data", "resource_data", "route_data", "fleet_data", "alerts_data"].all
    (fun k => (j.lookup k).isSome)

/-- Every emitted document carries all five required keys. -/
theorem emitDoc_keys (d : OutputDoc) : docHasAllKeys (emitDoc d) = true := rfl

/-- Benign inputs always parse to something. -/
theorem benign_parse (rp : String → Option Json) {r : RawInput}
    (hb : r.benign = true) : ∃ j, safe_parse_json rp r true = .ok j := by
  cases r with
  | absent => exact ⟨_, rfl⟩
  | blank => exact ⟨_, rfl⟩
  | malformed => exact ⟨_, rfl⟩
  | parsed j =>
    cases j with
    | obj fs => exact ⟨_, rfl⟩
    | null => simp [RawInput.benign] at hb
    | bool b => simp [RawInput.benign] at hb
    | num q => simp [RawInput.benign] at hb
    | str s => simp [RawInput.benign] at hb
    | arr xs => simp [RawInput.benign] at hb

/-- C5 (amended): whenever any of the four raw inputs is the empty
string and no input parses to a non-object JSON value, the run never
raises and the emitted document carries all of `weather_data`,
`resource_data`, `route_data`, `fleet_data`, `alerts_data`. -/
theorem C5_empty_input_never_raises (env : PyEnv) (w f s t : RawInput)
    (hw : w.benign = true) (hf : f.benign = true)
    (hs : s.benign = true) (ht : t.benign = true)
    (hone : w = .blank ∨ f = .blank ∨ s = .blank ∨ t = .blank) :
    (run_pipeline env w f s t).map (fun d => docHasAllKeys (emitDoc d)) = .ok true := by
  obtain ⟨wj, hwj⟩ := benign_parse env.reparse hw
  obtain ⟨fj, hfj⟩ := benign_parse env.reparse hf
  obtain ⟨sj, hsj⟩ := benign_parse env.reparse hs
  obtain ⟨tj, htj⟩ := benign_parse env.reparse ht
  unfold run_pipeline
  rw [hwj, okBind, hfj, okBind, hsj, okBind, htj, okBind]
  simp [Except.map, emitDoc_keys]

/-- C5 witness: the amended theorem at four empty strings. -/
theorem C5_empty_input_never_raises_witness :
    (run_pipeline testEnv .blank .blank .blank .blank).map
      (fun d => docHasAllKeys (emitDoc d)) = .ok true :=
  C5_empty_input_never_raises testEnv .blank .blank .blank .blank rfl rfl rfl rfl
    (Or.inl rfl)

/-- C5 counterexample: weather is the empty string, yet the run raises —
the fuel input `"[1, 2]"` parses to a JSON array and the nested-mode
normalizer's `data.items()` raises `AttributeError`, which `_run` does
not catch. -/
theorem C5_raises_with_empty_weather_cex :
    run_pipeline testEnv .blank (.parsed (.arr [.num 1, .num 2])) .blank .blank =
      .error "AttributeError: items" := rfl

/-! ### C7: chart-series alignment -/

/-- The emitted chart is aligned index-for-index with the document's own
forecast and has exactly the temperature and snowfall series. -/
def chartAligned (doc : OutputDoc) : Bool :=
  decide (doc.weather_chart_data.labels =
    doc.weather_data.forecast.map (fun e => chartLabel e.time)) &&
  decide (doc.weather_chart_data.datasets.map (fun ds => ds.label) =
    ["Temperature (°C)", "Snowfall (cm)"]) &&
  decide (doc.weather_chart_data.datasets.map (fun ds => ds.data) =
    [doc.weather_data.forecast.map (fun e => e.temp),
      doc.weather_data.forecast.map (fun e => e.snowfall)])

/-- Both assembly paths emit an aligned two-series chart. -/
theorem assembleDoc_chart (w : WeatherData) (inv : ResourceData) (tr : TrafficOut) :
    chartAligned (assembleDoc w inv tr) = true := by
  unfold assembleDoc
  cases tr.map_data with
  | none => rfl
  | some md => simp [chartAligned, mkChart, mkOperationalData]

/-- C7 (amended): in every successfully emitted document the chart under
`weather_chart_data` consists of a label array, a temperature array and
a snowfall array, each mapped index-for-index from the document's
forecast (hence all of length `n` for a transformed forecast of length
`n`) — and of nothing else: no precipitation series is emitted (the
zero-filled one is built and discarded inside the weather transformer). -/
theorem C7_chart_two_aligned_series (env : PyEnv) (w f s t : RawInput)
    (hok : (run_pipeline env w f s t).isOk = true) :
    (run_pipeline env w f s t).map chartAligned = .ok true := by
  cases hr : run_pipeline env w f s t with
  | error e =>
    rw [hr] at hok
    simp [Except.isOk, Except.toBool] at hok
  | ok d =>
    obtain ⟨wj, fj, sj, tj, hd⟩ := run_pipeline_ok_doc hr
    subst hd
    simp [Except.map, assembleDoc_chart]

/-- C7 witness: the aligned-chart theorem at a run with a one-entry
forecast. -/
theorem C7_chart_two_aligned_series_witness :
    (run_pipeline testEnv (.parsed weatherEx) .blank .blank .blank).map chartAligned =
      .ok true :=
  C7_chart_two_aligned_series testEnv (.parsed weatherEx) .blank .blank .blank rfl

/-- C7 counterexample: a one-entry forecast yields exactly two datasets
(temperature and snowfall) and no precipitation series, against the
claim's zero-filled precipitation array of length `n`. -/
theorem C7_no_precipitation_series_cex :
    (run_pipeline testEnv (.parsed weatherEx) .blank .blank .blank).map
      (fun d => d.weather_chart_data) =
      .ok ⟨["12:00:00Z"],
        [⟨"Temperature (°C)", [-3], "#ff6384", false⟩,
          ⟨"Snowfall (cm)", [2], "#4bc0c0", false⟩]⟩ := rfl

/-! ### C9: all emitted percentages in range -/

/-- Percentage invariant for a run result: an emitted document has
in-range resource levels and route metrics (vacuous on the raising
paths, which emit nothing). -/
def docPctOk (x : Except String OutputDoc) : Bool :=
  match x with
  | .error _ => true
  | .ok d => resourcePctOk d.resource_data && routeDataPctOk d.route_data

/-- Both assembly paths keep the document's percentages in range. -/
theorem assembleDoc_pct (env : PyEnv) (wj fj sj tj : Json) :
    resourcePctOk (assembleDoc (transform_weather_data env wj)
      (transform_inventory_data env fj sj) (transform_traffic_data env tj)).resource_data =
      true ∧
    routeDataPctOk (assembleDoc (transform_weather_data env wj)
      (transform_inventory_data env fj sj) (transform_traffic_data env tj)).route_data =
      true := by
  unfold assembleDoc
  cases (transform_traffic_data env tj).map_data with
  | none => exact ⟨rfl, rfl⟩
  | some md =>
    exact ⟨inventory_pct env fj sj, traffic_route_pct env tj⟩

/-- C9: for every input whatsoever, the produced `ResourceData` levels
and the produced `RouteData` coverage, efficiency scores and
priority-zone scores all lie in `[0, 100]` — at the transformer outputs
and in every document the full pipeline emits. -/
theorem C9_all_percentages_in_range (env : PyEnv) (fuel salt traffic : Json) :
    resourcePctOk (transform_inventory_data env fuel salt) = true ∧
    routeDataPctOk ((transform_traffic_data env traffic).route_data) = true ∧
    (∀ w f s t : RawInput, docPctOk (run_pipeline env w f s t) = true) := by
  refine ⟨inventory_pct env fuel salt, traffic_route_pct env traffic, ?_⟩
  intro w f s t
  cases hr : run_pipeline env w f s t with
  | error e => rfl
  | ok d =>
    obtain ⟨wj, fj, sj, tj, hd⟩ := run_pipeline_ok_doc hr
    subst hd
    have h := assembleDoc_pct env wj fj sj tj
    simp [docPctOk, h.1, h.2]
